import Mathlib

/-!
Verification development for the RSU-selection simulation scripts
(`run_simulation_base.py`, `run_simulation_smart.py`, `run_simulation_b-aware.py`,
`run_i10west_simulation_smart.py`, `run_chandleraz_simulation_smart.py`,
`run_chandleraz_simulation_b-aware.py`).

Shallow embedding conventions:
* Positions and distances are rationals.  The Python scripts compute
  `distance = math.sqrt(dx**2 + dy**2)` and then either compare it with a
  threshold or plug it into `1 / (1 + distance)`.  Threshold comparisons are
  embedded on the squared distance (`distSq p r <= 160000` for
  `sqrt(...) <= 400`), which is exactly equivalent because squaring is
  monotone on nonnegative reals (lemma `sqrt_le_400_iff` below records this).
  Where the distance value itself is needed we use `qsqrt`, which agrees with
  the real square root on perfect squares; every concrete input evaluated in
  this file is laid out on the integer grid so that all distances are
  perfect-square integers (lemma `qsqrt_natCast_sq`).
* The simulator oracle (`traci`) is embedded by passing the data it would
  return (positions, speeds, headings of active vehicles) as explicit
  arguments.  A heading enters only through `math.cos(math.radians(angle))`
  and `math.sin(math.radians(angle))`; the embedding takes the pair `(c, s)`
  of these two values directly.
-/

namespace RSUSim

/-- An RSU as built by `load_rsus`: identity plus fixed 2-D position
(`RSU.__init__` in every script; the `connected_vehicles` list some variants
carry is never read by the functions verified here). -/
structure RSU where
  id : Int
  x : ℚ
  y : ℚ
deriving DecidableEq, Repr

/-- Squared distance between a position and an RSU, the radicand of
`math.sqrt((pos[0] - rsu.x) ** 2 + (pos[1] - rsu.y) ** 2)`. -/
def distSq (p : ℚ × ℚ) (r : RSU) : ℚ :=
  (p.1 - r.x) ^ 2 + (p.2 - r.y) ^ 2

/-- Squared distance between two positions (radicand of `math.dist`). -/
def distSqP (p q : ℚ × ℚ) : ℚ :=
  (p.1 - q.1) ^ 2 + (p.2 - q.2) ^ 2

/-- Rational model of `math.sqrt`.  It agrees with the real square root
whenever the argument has a perfect-square numerator and denominator — in
particular on all perfect-square integers, which covers every concrete
geometry evaluated in this development (see `qsqrt_natCast_sq`). -/
def qsqrt (q : ℚ) : ℚ :=
  (Nat.sqrt q.num.toNat : ℚ) / (Nat.sqrt q.den : ℚ)

/-- On perfect squares of naturals, `qsqrt` is the square root. -/
theorem qsqrt_natCast_sq (n : ℕ) : qsqrt ((n : ℚ) ^ 2) = n := by
  have h : ((n : ℚ) ^ 2) = ((n ^ 2 : ℕ) : ℚ) := by push_cast; ring
  rw [h]
  unfold qsqrt
  rw [Rat.num_natCast, Rat.den_natCast, Int.toNat_natCast, Nat.sqrt_eq',
    Nat.sqrt_one]
  simp

/-- On the square of any nonnegative rational, `qsqrt` is exactly the square
root (a reduced fraction squares to a reduced fraction, so `Nat.sqrt` hits
both components exactly). -/
theorem qsqrt_sq (d : ℚ) (hd : 0 ≤ d) : qsqrt (d ^ 2) = d := by
  unfold qsqrt
  rw [Rat.num_pow, Rat.den_pow]
  have hnum : 0 ≤ d.num := Rat.num_nonneg.mpr hd
  have hn : (d.num ^ 2).toNat = d.num.toNat ^ 2 := by
    rcases Int.eq_ofNat_of_zero_le hnum with ⟨n, hn⟩
    rw [hn, show ((n : ℤ) ^ 2) = ((n ^ 2 : ℕ) : ℤ) by push_cast; ring,
      Int.toNat_natCast, Int.toNat_natCast]
  rw [hn, Nat.sqrt_eq', Nat.sqrt_eq']
  have h2 : ((d.num.toNat : ℤ) : ℚ) = (d.num : ℚ) := by
    exact_mod_cast congrArg (fun z : ℤ => (z : ℚ)) (Int.toNat_of_nonneg hnum)
  rw [show ((d.num.toNat : ℚ)) = ((d.num : ℚ)) by exact_mod_cast h2]
  exact Rat.num_div_den d

/-- Evaluation form of `qsqrt_sq` for concrete radicands. -/
theorem qsqrt_eval (q d : ℚ) (hd : 0 ≤ d) (h : q = d ^ 2) : qsqrt q = d :=
  h ▸ qsqrt_sq d hd

/-- `qsqrt` never returns a negative value. -/
theorem qsqrt_nonneg (q : ℚ) : 0 ≤ qsqrt q := by
  unfold qsqrt
  positivity

/-- Justification for embedding the scripts' range test
`math.sqrt(dSq) <= 400` as `dSq <= 160000`: the two are equivalent. -/
theorem sqrt_le_400_iff (x : ℝ) :
    Real.sqrt x ≤ 400 ↔ x ≤ 160000 := by
  rw [Real.sqrt_le_iff]
  norm_num

/-- `predict_future_position` (all scripts): dead-reckoning extrapolation
`pos + speed * time_ahead * (cos(heading), sin(heading))`.  The direction
cosines `(c, s)` stand for `math.cos(math.radians(angle))` and
`math.sin(math.radians(angle))`.  The source performs no validation of any
argument: it returns this tuple for every input, including negative speeds. -/
def predict_future_position (pos : ℚ × ℚ) (speed c s t : ℚ) : ℚ × ℚ :=
  (pos.1 + speed * t * c, pos.2 + speed * t * s)

/-- The axis-aligned-rectangle line-of-sight test shared by the
`check_for_obstacles` / `is_obstacle_in_los` variants:
`min(vx, rx) <= ox <= max(vx, rx) and min(vy, ry) <= oy <= max(vy, ry)`. -/
def inRect (v : ℚ × ℚ) (r : RSU) (o : ℚ × ℚ) : Bool :=
  decide (min v.1 r.x ≤ o.1 ∧ o.1 ≤ max v.1 r.x ∧
          min v.2 r.y ≤ o.2 ∧ o.2 ≤ max v.2 r.y)

/-- `check_for_obstacles` of `run_simulation_smart.py` (lines 44–51): every
active vehicle — the subject itself included, there is no
`obstacle_id == vehicle_id` skip — whose position falls in the rectangle
spanned by the (possibly predicted) vehicle position and the RSU blocks the
link.  `obstaclePositions` is the list of positions `traci` would report for
`traci.vehicle.getIDList()`. -/
def check_for_obstacles (vpos : ℚ × ℚ) (r : RSU)
    (obstaclePositions : List (ℚ × ℚ)) : Bool :=
  obstaclePositions.any (fun o => inRect vpos r o)

/-- `check_for_obstacles` of `run_simulation_base.py` (lines 27–36): same
rectangle test, but the subject vehicle is skipped
(`if obstacle_id == vehicle_id: continue`).  `vehicles` carries
(id, position) pairs for all active vehicles. -/
def check_for_obstacles_base (vpos : ℚ × ℚ) (r : RSU) (vehicle_id : Int)
    (vehicles : List (Int × ℚ × ℚ)) : Bool :=
  vehicles.any (fun v => v.1 ≠ vehicle_id && inRect vpos r v.2)

/-- `calculate_signal_strength` of `run_simulation_smart.py` (lines 54–64):
1.0 when co-located, otherwise `max(0, 1 / (1 + distance * 5))` when the
rectangle test reports a blocked link and `max(0, 1 / (1 + distance))`
otherwise.  `distance == 0` iff the squared distance is 0. -/
def calculate_signal_strength (predicted_pos : ℚ × ℚ) (r : RSU)
    (obstaclePositions : List (ℚ × ℚ)) : ℚ :=
  if distSq predicted_pos r = 0 then 1
  else if check_for_obstacles predicted_pos r obstaclePositions then
    max 0 (1 / (1 + qsqrt (distSq predicted_pos r) * 5))
  else
    max 0 (1 / (1 + qsqrt (distSq predicted_pos r)))

/-- `calculate_signal_strength` of `run_simulation_base.py` (lines 39–49):
as the smart variant but with the self-excluding obstacle test. -/
def calculate_signal_strength_base (vpos : ℚ × ℚ) (r : RSU)
    (vehicle_id : Int) (vehicles : List (Int × ℚ × ℚ)) : ℚ :=
  if distSq vpos r = 0 then 1
  else if check_for_obstacles_base vpos r vehicle_id vehicles then
    max 0 (1 / (1 + qsqrt (distSq vpos r) * 5))
  else
    max 0 (1 / (1 + qsqrt (distSq vpos r)))

/-- `is_blocking_los` of `run_simulation_b-aware.py` (lines 36–37):
`math.dist(vehicle_pos, obstacle_pos) < math.dist(vehicle_pos, rsu)`,
embedded on squared distances (equivalent, both sides nonnegative). -/
def is_blocking_los_baware (vpos : ℚ × ℚ) (r : RSU) (opos : ℚ × ℚ) : Bool :=
  decide (distSqP vpos opos < distSq vpos r)

/-- `calculate_signal_strength` of `run_simulation_b-aware.py` (lines 40–45):
starts from the true distance and multiplies it by 1.5 once for EACH obstacle
whose `is_blocking_los` test fires, then returns
`max(0, 1 / (1 + distance)) if distance > 0 else 1.0`. -/
def calculate_signal_strength_baware (vpos : ℚ × ℚ) (r : RSU)
    (obstaclePositions : List (ℚ × ℚ)) : ℚ :=
  let d := obstaclePositions.foldl
    (fun d o => if is_blocking_los_baware vpos r o then d * (3 / 2) else d)
    (qsqrt (distSq vpos r))
  if d > 0 then max 0 (1 / (1 + d)) else 1

/-- Modelled from the spec: §4.3 LinkQualityModel
`strength(distance, blocked, block_penalty)`.  The scripts hard-code the
penalty (5 in the rectangle-test variants, 1.5-per-obstacle in
`run_simulation_b-aware.py`); the named `block_penalty` parameter exists only
in the spec.  `calculate_signal_strength_eq_strength` ties the smart variant
to this model at penalty 5. -/
def strength (distance : ℚ) (blocked : Bool) (block_penalty : ℚ) : ℚ :=
  if distance = 0 then 1
  else max 0 (1 / (1 + distance * (if blocked then block_penalty else 1)))

/-- The smart variant is the spec's model applied to the computed distance
and rectangle-test obstruction flag, with `block_penalty = 5`. -/
theorem calculate_signal_strength_eq_strength (p : ℚ × ℚ) (r : RSU)
    (obs : List (ℚ × ℚ)) (hd : distSq p r = 0 ↔ qsqrt (distSq p r) = 0) :
    calculate_signal_strength p r obs =
      strength (qsqrt (distSq p r)) (check_for_obstacles p r obs) 5 := by
  unfold calculate_signal_strength strength
  by_cases h0 : distSq p r = 0
  · rw [if_pos h0, if_pos (hd.mp h0)]
  · rw [if_neg h0, if_neg (fun hq => h0 (hd.mpr hq))]
    by_cases hb : check_for_obstacles p r obs <;> simp [hb]

/-- Kinematic snapshot of an active vehicle as the simulator oracle reports
it: position, speed and heading direction cosines. -/
structure VehState where
  pos : ℚ × ℚ
  speed : ℚ
  c : ℚ
  s : ℚ
deriving DecidableEq, Repr

/-- The tick sequence of `range(1, max_duration + 1, step_size)`:
`(max_duration + step_size - 1) / step_size` values `1, 1 + step_size, ...`.
(For `step_size = 0` Python raises at the call; theorems only evaluate
positive steps.) -/
def examinedTicks (max_duration step_size : ℕ) : List ℕ :=
  List.range' 1 ((max_duration + step_size - 1) / step_size) step_size

/-- The `for t in ...: if <fail>: break; duration += step_size` accumulation
shared by the rollout estimators. -/
def rolloutLoop (fail : ℕ → Bool) (step_size : ℕ) : List ℕ → ℕ
  | [] => 0
  | t :: ts => if fail t then 0 else step_size + rolloutLoop fail step_size ts

/-- Break condition of the `run_simulation_smart.py` rollout at examined
tick `t`: predicted distance beyond the 400-unit range threshold. -/
def rolloutFail (pos : ℚ × ℚ) (speed c s : ℚ) (r : RSU) (t : ℕ) : Bool :=
  decide (distSq (predict_future_position pos speed c s (t : ℚ)) r > 160000)

/-- `estimate_connection_duration` of `run_simulation_smart.py` (lines
33–41): roll the trajectory forward over the examined ticks and stop the
first time the predicted distance exceeds the 400-unit range threshold.
There is no obstruction test in this variant. -/
def estimate_connection_duration (pos : ℚ × ℚ) (speed c s : ℚ) (r : RSU)
    (max_duration step_size : ℕ) : ℕ :=
  rolloutLoop (rolloutFail pos speed c s r) step_size
    (examinedTicks max_duration step_size)

/-- `is_blocking_los` of `run_chandleraz_simulation_smart.py` (lines 35–42):
an obstacle blocks the future line of sight when its own predicted position
at `time_ahead` falls inside the rectangle spanned by the subject's future
position and the RSU.  `obstacles` lists every active vehicle's kinematic
state — the subject included, since the source iterates
`traci.vehicle.getIDList()` without excluding the caller. -/
def is_blocking_los_chandler (future_vehicle_pos : ℚ × ℚ) (r : RSU)
    (time_ahead : ℚ) (obstacles : List VehState) : Bool :=
  obstacles.any fun o =>
    inRect future_vehicle_pos r
      (predict_future_position o.pos o.speed o.c o.s time_ahead)

/-- Break condition of the `run_chandleraz_simulation_smart.py` rollout at
examined tick `t`: out of range, or line of sight blocked at the predicted
future positions. -/
def rolloutFailChandler (pos : ℚ × ℚ) (speed c s : ℚ) (r : RSU)
    (obstacles : List VehState) (t : ℕ) : Bool :=
  decide (distSq (predict_future_position pos speed c s (t : ℚ)) r > 160000) ||
    is_blocking_los_chandler (predict_future_position pos speed c s (t : ℚ))
      r (t : ℚ) obstacles

/-- `estimate_connection_duration` of `run_chandleraz_simulation_smart.py`
(lines 52–63): as the smart rollout, but the loop also breaks when
`is_blocking_los` fires at the predicted tick. -/
def estimate_connection_duration_chandler (pos : ℚ × ℚ) (speed c s : ℚ)
    (r : RSU) (obstacles : List VehState) (max_duration step_size : ℕ) : ℕ :=
  rolloutLoop (rolloutFailChandler pos speed c s r obstacles) step_size
    (examinedTicks max_duration step_size)

/-- The rollout loop accumulates `step_size` once per examined tick before
the first failing one. -/
theorem rolloutLoop_eq_takeWhile (fail : ℕ → Bool) (s : ℕ) (l : List ℕ) :
    rolloutLoop fail s l = s * (l.takeWhile (fun t => !fail t)).length := by
  induction l with
  | nil => simp [rolloutLoop]
  | cons t ts ih =>
    by_cases h : fail t = true
    · simp [rolloutLoop, h, List.takeWhile_cons]
    · rw [Bool.not_eq_true] at h
      simp [rolloutLoop, h, List.takeWhile_cons, ih, Nat.mul_succ]
      omega

/-- Per-vehicle body of `run_simulation` in `run_simulation_base.py` (lines
78–94): fold over the roster keeping `(best_signal, best_rsu)`, starting from
`(0, None)` and replacing the incumbent only on strictly greater signal
strength, so the first-encountered maximum survives ties. -/
def greedySelect (vpos : ℚ × ℚ) (vehicle_id : Int)
    (vehicles : List (Int × ℚ × ℚ)) (rsus : List RSU) : ℚ × Option RSU :=
  rsus.foldl
    (fun b r =>
      let ss := calculate_signal_strength_base vpos r vehicle_id vehicles
      if ss > b.1 then (ss, some r) else b)
    (0, none)

/-- One emitted row of the smart simulation log
(`run_simulation_smart.py` line 111): chosen RSU id, the logged
signal-strength and connection-duration values, and the composite score.
The tick and vehicle id columns are context supplied by the caller. -/
structure ConnectionRecord where
  rsu_id : Int
  signal : ℚ
  duration : ℕ
  score : ℚ
deriving DecidableEq, Repr

/-- State of the candidate-evaluation loop of
`run_smart_simulation_with_trajectory`: the incumbent
`(best_score, best_rsu)` plus the current values of the Python loop variables
`signal_strength` and `connection_duration`, which survive the loop. -/
structure SmartLoopState where
  best_score : ℚ
  best_rsu : Option RSU
  lastSignal : ℚ
  lastDuration : ℕ
deriving DecidableEq, Repr

/-- One iteration of the candidate loop of
`run_smart_simulation_with_trajectory` (`run_simulation_smart.py` lines
100–107): compute signal strength at the predicted position (the source
predicts once before the loop; the predictor is pure, so recomputing it here
is identical), compute the rollout duration, and keep the strictly better
incumbent; the loop variables `signal_strength`/`connection_duration` are
overwritten unconditionally. -/
def smartStep (pos : ℚ × ℚ) (speed c s : ℚ)
    (obstaclePositions : List (ℚ × ℚ)) (st : SmartLoopState) (r : RSU) :
    SmartLoopState :=
  let ss := calculate_signal_strength (predict_future_position pos speed c s 2)
    r obstaclePositions
  let cd := estimate_connection_duration pos speed c s r 10 1
  let score := ss * (cd : ℚ)
  if score > st.best_score then ⟨score, some r, ss, cd⟩
  else ⟨st.best_score, st.best_rsu, ss, cd⟩

/-- Per-vehicle body of `run_smart_simulation_with_trajectory`
(`run_simulation_smart.py` lines 88–112): predict 2 ticks ahead, score every
RSU by `signal_strength * connection_duration`, keep the strictly better
incumbent, and — when an RSU was chosen — emit
`(best_rsu.id, signal_strength, connection_duration, best_score)`, where the
signal/duration fields are the loop variables as left by the LAST iteration
(line 111 logs `signal_strength` and `connection_duration`, not values saved
for `best_rsu`). -/
def smartDecision (pos : ℚ × ℚ) (speed c s : ℚ)
    (obstaclePositions : List (ℚ × ℚ)) (rsus : List RSU) :
    Option ConnectionRecord :=
  let st := rsus.foldl (smartStep pos speed c s obstaclePositions)
    ⟨0, none, 0, 0⟩
  match st.best_rsu with
  | some r => some ⟨r.id, st.lastSignal, st.lastDuration, st.best_score⟩
  | none => none

/-- Node of the time-expanded graph of `construct_dag`
(`run_chandleraz_simulation_b-aware.py` lines 63–97): the sentinel
`("start", 0)`, RSU nodes `(rsu.id, t)`, and the sentinel
`("end", horizon + 1)` — written `stop` here; its tick offset is fixed by
the horizon. -/
inductive TNode where
  | start : TNode
  | stop : TNode
  | rsu : Int → ℕ → TNode
deriving DecidableEq, Repr

/-- Directed weighted edge of the time-expanded graph. -/
abbrev TEdge := TNode × TNode × ℚ

/-- The RSU nodes added at tick `t` of the construction: every roster RSU
within the 400-unit range threshold of the position predicted for
`t * timestep` (`distance <= 400`, embedded on the squared distance), in
roster order. -/
def tickLayer (pos : ℚ × ℚ) (speed c s timestep : ℚ) (rsus : List RSU)
    (t : ℕ) : List TNode :=
  (rsus.filter fun r =>
      distSq (predict_future_position pos speed c s ((t : ℚ) * timestep)) r
        ≤ 160000).map
    fun r => TNode.rsu r.id t

/-- State of the graph-construction loop: the accumulated edge list plus the
live node set `last_nodes`.  Python keeps `last_nodes` as a set; the list
order here (roster order) affects only the listing order of edges, not the
graph. -/
structure DagState where
  edges : List TEdge
  last : List TNode
deriving DecidableEq, Repr

/-- One iteration of the `for t in range(1, horizon + 1)` loop of
`construct_dag`: add a node for every in-range RSU with an edge of weight
`-1 / (1 + distance)` from every live node, then replace the live set by the
new nodes — keeping the previous live set unchanged when no RSU is in range
(`last_nodes = current_nodes or last_nodes`). -/
def dagStep (pos : ℚ × ℚ) (speed c s timestep : ℚ) (rsus : List RSU)
    (st : DagState) (t : ℕ) : DagState :=
  ⟨st.edges ++
      ((rsus.filter fun r =>
          distSq (predict_future_position pos speed c s ((t : ℚ) * timestep)) r
            ≤ 160000).flatMap
        fun r => st.last.map fun ln =>
          (ln, TNode.rsu r.id t,
            -(1 / (1 + qsqrt (distSq
              (predict_future_position pos speed c s ((t : ℚ) * timestep)) r))))),
    if tickLayer pos speed c s timestep rsus t = [] then st.last
    else tickLayer pos speed c s timestep rsus t⟩

/-- The graph-construction loop over ticks `1..horizon`, started from the
lone `("start", 0)` node. -/
def dagBuild (pos : ℚ × ℚ) (speed c s timestep : ℚ) (rsus : List RSU)
    (horizon : ℕ) : DagState :=
  (List.range' 1 horizon).foldl (dagStep pos speed c s timestep rsus)
    ⟨[], [TNode.start]⟩

/-- The live node set after the construction has processed ticks `1..t`. -/
def liveAt (pos : ℚ × ℚ) (speed c s timestep : ℚ) (rsus : List RSU)
    (t : ℕ) : List TNode :=
  (dagBuild pos speed c s timestep rsus t).last

/-- The full edge list of the time-expanded graph: the construction edges
plus the zero-weight edges from the final live set into `("end", horizon+1)`. -/
def dagEdges (pos : ℚ × ℚ) (speed c s timestep : ℚ) (rsus : List RSU)
    (horizon : ℕ) : List TEdge :=
  let st := dagBuild pos speed c s timestep rsus horizon
  st.edges ++ st.last.map fun ln => (ln, TNode.stop, 0)

/-- All paths from `a` to `b` in the edge list.  Every edge strictly
increases the tick offset, so the graph is acyclic and fuel `horizon + 2`
(the longest possible path) enumerates every path. -/
def pathsFrom (edges : List TEdge) : ℕ → TNode → TNode → List (List TNode)
  | 0, a, b => if a = b then [[a]] else []
  | fuel + 1, a, b =>
    if a = b then [[a]]
    else
      (edges.filter fun e => e.1 = a).flatMap fun e =>
        (pathsFrom edges fuel e.2.1 b).map fun p => a :: p

/-- Weight of the edge from `a` to `b` (0 when absent; parallel edges do not
arise: `networkx.DiGraph.add_edge` keeps one edge per node pair). -/
def weightOf (edges : List TEdge) (a b : TNode) : ℚ :=
  ((edges.find? fun e => e.1 = a && e.2.1 = b).map fun e => e.2.2).getD 0

/-- Total weight of a path (sum of its consecutive edge weights). -/
def pathWeight (edges : List TEdge) : List TNode → ℚ
  | a :: b :: rest => weightOf edges a b + pathWeight edges (b :: rest)
  | _ => 0

/-- First minimum-weight path in enumeration order. -/
def selectMinPath (edges : List TEdge) (paths : List (List TNode)) :
    Option (List TNode) :=
  paths.foldl
    (fun acc p =>
      match acc with
      | none => some p
      | some q => if pathWeight edges p < pathWeight edges q then some p else acc)
    none

/-- Every start-to-end path of the constructed graph. -/
def schedulePaths (pos : ℚ × ℚ) (speed c s timestep : ℚ) (rsus : List RSU)
    (horizon : ℕ) : List (List TNode) :=
  pathsFrom (dagEdges pos speed c s timestep rsus horizon) (horizon + 2)
    TNode.start TNode.stop

/-- `construct_dag` (`run_chandleraz_simulation_b-aware.py` lines 63–97).
The call `nx.shortest_path(G, start, end, weight)` is modelled as a
minimum-total-weight start-to-end path, which is exact wherever that path is
unique; the theorems below only evaluate it there.  (What the library's
default method — bidirectional Dijkstra — actually does on the negative
weights of this graph is the subject of the C1 finding.)  The `getD`
fallback models the `except nx.NetworkXNoPath: path = [start_node]` branch;
it is dead code, because the live set is never empty, so `end` is always
reachable. -/
def construct_dag (pos : ℚ × ℚ) (speed c s timestep : ℚ) (rsus : List RSU)
    (horizon : ℕ) : List TNode :=
  (selectMinPath (dagEdges pos speed c s timestep rsus horizon)
      (schedulePaths pos speed c s timestep rsus horizon)).getD
    [TNode.start]

theorem strength_nonneg (d : ℚ) (b : Bool) (p : ℚ) : 0 ≤ strength d b p := by
  unfold strength
  split
  · norm_num
  · exact le_max_left 0 _

theorem strength_le_one (d : ℚ) (b : Bool) (p : ℚ) (h0 : 0 ≤ d) (hp : 1 ≤ p) :
    strength d b p ≤ 1 := by
  unfold strength
  split
  · exact le_refl 1
  · have hk : (0 : ℚ) ≤ (if b then p else 1) := by
      split <;> linarith
    have hdk : (0 : ℚ) ≤ d * (if b then p else 1) := mul_nonneg h0 hk
    have h1 : (1 : ℚ) / (1 + d * (if b then p else 1)) ≤ 1 := by
      rw [div_le_one (by linarith)]
      linarith
    exact max_le (by norm_num) h1

/-- Claim C9: for distances `0 ≤ d₁ ≤ d₂` and any penalty `≥ 1`, the link
quality model is non-increasing in distance at fixed obstruction, obstruction
never raises it, and its value stays in `[0, 1]`. -/
theorem C9_strength_monotone_bounded (d₁ d₂ p : ℚ) (b : Bool)
    (h0 : 0 ≤ d₁) (h12 : d₁ ≤ d₂) (hp : 1 ≤ p) :
    strength d₂ b p ≤ strength d₁ b p ∧
      strength d₁ true p ≤ strength d₁ false p ∧
      0 ≤ strength d₁ b p ∧ strength d₁ b p ≤ 1 := by
  have hk : (1 : ℚ) ≤ (if b then p else 1) := by split <;> linarith
  have hk0 : (0 : ℚ) ≤ (if b then p else 1) := by linarith
  refine ⟨?_, ?_, strength_nonneg d₁ b p, strength_le_one d₁ b p h0 hp⟩
  · by_cases h1 : d₁ = 0
    · rw [show strength d₁ b p = 1 by rw [strength, if_pos h1]]
      exact strength_le_one d₂ b p (h1 ▸ h12) hp
    · have hd1 : 0 < d₁ := lt_of_le_of_ne h0 (Ne.symm h1)
      have h2 : d₂ ≠ 0 := by intro h; rw [h] at h12; linarith
      rw [strength, strength, if_neg h1, if_neg h2]
      have hden : (0 : ℚ) < 1 + d₁ * (if b then p else 1) := by nlinarith
      have : (1 : ℚ) / (1 + d₂ * (if b then p else 1)) ≤
          1 / (1 + d₁ * (if b then p else 1)) := by
        apply one_div_le_one_div_of_le hden
        nlinarith
      exact max_le_max (le_refl 0) this
  · by_cases h1 : d₁ = 0
    · rw [strength, strength, if_pos h1, if_pos h1]
    · have hd1 : 0 < d₁ := lt_of_le_of_ne h0 (Ne.symm h1)
      rw [strength, strength, if_neg h1, if_neg h1]
      have : (1 : ℚ) / (1 + d₁ * p) ≤ 1 / (1 + d₁ * 1) := by
        apply one_div_le_one_div_of_le (by nlinarith)
        nlinarith
      simpa using max_le_max (le_refl (0 : ℚ)) this

/-- Witness for C9 at `d₁ = 1`, `d₂ = 2`, `p = 5`, blocked. -/
theorem C9_strength_monotone_bounded_witness :
    (0 : ℚ) ≤ 1 ∧ (1 : ℚ) ≤ 2 ∧ (1 : ℚ) ≤ 5 ∧
      (strength 2 true 5 ≤ strength 1 true 5 ∧
        strength 1 true 5 ≤ strength 1 false 5 ∧
        0 ≤ strength 1 true 5 ∧ strength 1 true 5 ≤ 1) :=
  ⟨by norm_num, by norm_num, by norm_num,
    C9_strength_monotone_bounded 1 2 5 true (by norm_num) (by norm_num)
      (by norm_num)⟩

/-- Claim C5, counterexample: with two blocking obstacles the
blockage-aware variant multiplies the distance by its 1.5 penalty twice
(distance 100 becomes 225, strength 1/226), so the penalty is not applied
exactly once as the claim states (that would give 1/151). -/
theorem C5_counterexample :
    calculate_signal_strength_baware (1, 0) ⟨1, 101, 0⟩ [(11, 0), (21, 0)]
        = 1 / 226 ∧
      (1 / 226 : ℚ) ≠ max 0 (1 / (1 + 100 * (3 / 2))) := by
  constructor
  · have h1 : distSq (1, 0) (⟨1, 101, 0⟩ : RSU) = 10000 := by
      norm_num [distSq]
    have h2 : qsqrt (10000 : ℚ) = 100 :=
      qsqrt_eval _ _ (by norm_num) (by norm_num)
    have hb1 : is_blocking_los_baware (1, 0) ⟨1, 101, 0⟩ (11, 0) = true := by
      norm_num [is_blocking_los_baware, distSqP, distSq]
    have hb2 : is_blocking_los_baware (1, 0) ⟨1, 101, 0⟩ (21, 0) = true := by
      norm_num [is_blocking_los_baware, distSqP, distSq]
    unfold calculate_signal_strength_baware
    simp only [List.foldl_cons, List.foldl_nil, hb1, hb2, if_true]
    rw [h1, h2]
    norm_num [max_def]
  · rw [max_eq_right (by norm_num : (0 : ℚ) ≤ 1 / (1 + 100 * (3 / 2)))]
    norm_num

theorem baware_fold_eq_pow (vpos : ℚ × ℚ) (r : RSU) (obst : List (ℚ × ℚ)) :
    ∀ d0 : ℚ,
      obst.foldl
          (fun d o => if is_blocking_los_baware vpos r o then d * (3 / 2) else d)
          d0
        = d0 * (3 / 2) ^ (obst.countP fun o => is_blocking_los_baware vpos r o) := by
  induction obst with
  | nil => intro d0; simp
  | cons o l ih =>
    intro d0
    simp only [List.foldl_cons, List.countP_cons]
    by_cases h : is_blocking_los_baware vpos r o = true
    · simp only [h, if_true]
      rw [ih (d0 * (3 / 2)), pow_succ]
      ring
    · simp [h]
      exact ih d0

/-- Claim C5, amended: the strength is 1.0 at distance 0; otherwise the
blockage-aware variant applies its 1.5 penalty once per blocking obstacle —
`max(0, 1/(1 + distance * 1.5 ^ (number of blocking obstacles)))` — while
the 5.0-penalty variants apply their penalty exactly once (single blocked
flag), and the claim's scenario (distance 100, obstructed, penalty 5 →
1/501) holds of those variants. -/
theorem C5_strength_formula :
    (∀ (vpos : ℚ × ℚ) (r : RSU) (obst : List (ℚ × ℚ)),
        calculate_signal_strength_baware vpos r obst =
          if qsqrt (distSq vpos r) = 0 then 1
          else
            max 0 (1 / (1 + qsqrt (distSq vpos r) *
              (3 / 2) ^ (obst.countP fun o => is_blocking_los_baware vpos r o)))) ∧
      calculate_signal_strength (0, 0) ⟨1, 100, 0⟩ [(50, 0)] = 1 / 501 := by
  constructor
  · intro vpos r obst
    unfold calculate_signal_strength_baware
    rw [baware_fold_eq_pow]
    by_cases h0 : qsqrt (distSq vpos r) = 0
    · rw [if_pos h0, h0]
      norm_num
    · have hd : 0 < qsqrt (distSq vpos r) :=
        lt_of_le_of_ne (qsqrt_nonneg _) (Ne.symm h0)
      have hpow : (0 : ℚ) < (3 / 2) ^ (obst.countP fun o =>
          is_blocking_los_baware vpos r o) := by positivity
      rw [if_neg h0, if_pos (by positivity)]
  · have h1 : distSq (0, 0) (⟨1, 100, 0⟩ : RSU) = 10000 := by
      norm_num [distSq]
    have h2 : qsqrt (10000 : ℚ) = 100 :=
      qsqrt_eval _ _ (by norm_num) (by norm_num)
    have hb : check_for_obstacles (0, 0) (⟨1, 100, 0⟩ : RSU) [(50, 0)] = true := by
      simp [check_for_obstacles, inRect]
      norm_num
    unfold calculate_signal_strength
    rw [h1, h2, if_neg (by norm_num), if_pos hb]
    rw [max_eq_right (by norm_num : (0 : ℚ) ≤ 1 / (1 + 100 * 5))]
    norm_num

/-- Claim C8: the `run_simulation_smart.py` obstacle test does not exclude
the subject vehicle, so a lone vehicle whose current position falls between
its predicted position and the RSU is reported blocked by itself; the
`run_simulation_base.py` variant skips the subject and never reports a lone
vehicle blocked. -/
theorem C8_self_obstruction :
    check_for_obstacles (200, 0) ⟨1, 0, 0⟩ [(100, 0)] = true ∧
      ∀ (p : ℚ × ℚ) (r : RSU) (vid : Int) (q : ℚ × ℚ),
        check_for_obstacles_base p r vid [(vid, q)] = false := by
  constructor
  · simp [check_for_obstacles, inRect]
    norm_num
  · intro p r vid q
    simp [check_for_obstacles_base]

/-- Claim C10, counterexample: trajectory prediction with a negative speed
does not fail — it returns the dead-reckoned position `(-10, 0)`. -/
theorem C10_counterexample :
    predict_future_position (0, 0) (-5) 1 0 2 = ((-10 : ℚ), 0) := by
  norm_num [predict_future_position, Prod.ext_iff]

/-- Claim C10, amended: `predict_future_position` performs no input
validation and is total; for every speed (negative included) and every unit
heading direction the squared displacement it produces is `(speed * t)^2`. -/
theorem C10_predict_total (pos : ℚ × ℚ) (speed c s t : ℚ)
    (h : c ^ 2 + s ^ 2 = 1) :
    distSqP (predict_future_position pos speed c s t) pos = (speed * t) ^ 2 := by
  unfold distSqP predict_future_position
  linear_combination (speed * t) ^ 2 * h

/-- Witness for the amended C10 at speed `-5`, heading `(1, 0)`. -/
theorem C10_predict_total_witness :
    (1 : ℚ) ^ 2 + (0 : ℚ) ^ 2 = 1 ∧
      distSqP (predict_future_position (0, 0) (-5) 1 0 2) (0, 0) =
        ((-5 : ℚ) * 2) ^ 2 :=
  ⟨by norm_num, C10_predict_total (0, 0) (-5) 1 0 2 (by norm_num)⟩

theorem takeWhile_length_le {α : Type} (p : α → Bool) (l : List α) :
    (l.takeWhile p).length ≤ l.length := by
  induction l with
  | nil => simp
  | cons a l ih =>
    rw [List.takeWhile_cons]
    split
    · simpa using Nat.succ_le_succ ih
    · simp

/-- Claim C4, counterexample: a stationary vehicle colocated with the RSU,
`max_duration = 10` and `step_size = 3`, yields a rollout duration of 12,
outside the `[0, max_duration]` interval the claim asserts (the loop adds
`step_size` for each of the ⌈10/3⌉ = 4 examined ticks). -/
theorem C4_counterexample :
    estimate_connection_duration (5, 5) 0 1 0 ⟨1, 5, 5⟩ 10 3 = 12 ∧
      ¬(12 ≤ 10) := by
  constructor
  · norm_num [estimate_connection_duration, examinedTicks, rolloutLoop,
      rolloutFail, List.range', predict_future_position, distSq]
  · norm_num

/-- Claim C4, amended: the rollout duration equals `step_size` times the
number of examined ticks (`1, 1 + step_size, ...`) before the first failing
one, is bounded by `step_size * ⌈max_duration / step_size⌉` (which is
`max_duration` only when `step_size` divides into it evenly, e.g. for the
default `step_size = 1`), and is 0 when tick 1 is already out of range; the
`run_simulation_smart.py` variant is the obstruction-aware rollout run with
an empty obstacle list. -/
theorem C4_rollout_duration (pos : ℚ × ℚ) (speed c s : ℚ) (r : RSU)
    (obstacles : List VehState) (m step : ℕ) :
    estimate_connection_duration_chandler pos speed c s r obstacles m step =
        step * ((examinedTicks m step).takeWhile
          (fun t => !rolloutFailChandler pos speed c s r obstacles t)).length ∧
      estimate_connection_duration_chandler pos speed c s r obstacles m step ≤
        step * ((m + step - 1) / step) ∧
      (distSq (predict_future_position pos speed c s 1) r > 160000 →
        estimate_connection_duration_chandler pos speed c s r obstacles m step
          = 0) ∧
      estimate_connection_duration pos speed c s r m step =
        estimate_connection_duration_chandler pos speed c s r [] m step := by
  refine ⟨rolloutLoop_eq_takeWhile _ _ _, ?_, ?_, ?_⟩
  · rw [estimate_connection_duration_chandler, rolloutLoop_eq_takeWhile]
    have hlen : ((examinedTicks m step).takeWhile
        (fun t => !rolloutFailChandler pos speed c s r obstacles t)).length ≤
        (m + step - 1) / step := by
      refine le_trans (takeWhile_length_le _ _) ?_
      rw [examinedTicks, List.length_range']
    exact Nat.mul_le_mul_left step hlen
  · intro h
    have hfail : rolloutFailChandler pos speed c s r obstacles 1 = true := by
      simp only [rolloutFailChandler, Bool.or_eq_true, decide_eq_true_eq]
      left
      exact_mod_cast h
    rw [estimate_connection_duration_chandler, examinedTicks]
    cases hn : (m + step - 1) / step with
    | zero => simp [List.range', rolloutLoop]
    | succ k => simp [List.range', rolloutLoop, hfail]
  · rw [estimate_connection_duration, estimate_connection_duration_chandler]
    have hp : rolloutFail pos speed c s r =
        rolloutFailChandler pos speed c s r [] := by
      funext t
      simp [rolloutFail, rolloutFailChandler, is_blocking_los_chandler]
    rw [hp]

theorem calculate_signal_strength_base_pos (vpos : ℚ × ℚ) (r : RSU)
    (vid : Int) (vehicles : List (Int × ℚ × ℚ)) :
    0 < calculate_signal_strength_base vpos r vid vehicles := by
  unfold calculate_signal_strength_base
  have h0 : 0 ≤ qsqrt (distSq vpos r) := qsqrt_nonneg _
  split
  · norm_num
  · split
    · have hx : 0 < 1 / (1 + qsqrt (distSq vpos r) * 5) := by
        apply div_pos one_pos
        linarith
      exact lt_max_of_lt_right hx
    · have hx : 0 < 1 / (1 + qsqrt (distSq vpos r)) := by
        apply div_pos one_pos
        linarith
      exact lt_max_of_lt_right hx

theorem greedy_fold_first_max (f : RSU → ℚ) (hf : ∀ x, 0 < f x)
    (l : List RSU) :
    l ≠ [] →
      ∃ pre m post, l = pre ++ m :: post ∧
        l.foldl (fun b r => if f r > b.1 then (f r, some r) else b)
            ((0 : ℚ), (none : Option RSU)) = (f m, some m) ∧
        (∀ x ∈ pre, f x < f m) ∧ (∀ x ∈ l, f x ≤ f m) := by
  induction l using List.reverseRecOn with
  | nil => intro h; exact absurd rfl h
  | append_singleton l' r ih =>
    intro _
    rw [List.foldl_append]
    rcases eq_or_ne l' [] with hl' | hl'
    · subst hl'
      refine ⟨[], r, [], by simp, ?_, by simp, ?_⟩
      · simp [hf r]
      · intro x hx
        simp only [List.nil_append, List.mem_singleton] at hx
        subst hx
        exact le_refl _
    · rcases ih hl' with ⟨pre, m, post, hdecomp, hfold, hpre, hall⟩
      rw [hfold]
      by_cases hgt : f r > f m
      · refine ⟨l', r, [], by simp, by simp [hgt], ?_, ?_⟩
        · intro x hx
          exact lt_of_le_of_lt (hall x hx) hgt
        · intro x hx
          rcases List.mem_append.mp hx with hx | hx
          · exact le_of_lt (lt_of_le_of_lt (hall x hx) hgt)
          · rw [List.mem_singleton] at hx
            subst hx
            exact le_refl _
      · refine ⟨pre, m, post ++ [r], by rw [hdecomp]; simp, by simp [hgt],
          hpre, ?_⟩
        intro x hx
        rcases List.mem_append.mp hx with hx | hx
        · exact hall x hx
        · rw [List.mem_singleton] at hx
          subst hx
          exact le_of_not_lt hgt

/-- Claim C6, amended: Greedy-Current returns the first-encountered RSU of
maximal signal strength — every earlier roster entry is strictly weaker and
no entry is stronger.  (This coincides with the lowest-identity RSU only
when the roster is listed in ascending identity order; the roster file order
is what breaks ties.) -/
theorem C6_greedy_first_encountered_max (vpos : ℚ × ℚ) (vid : Int)
    (vehicles : List (Int × ℚ × ℚ)) (rsus : List RSU) (h : rsus ≠ []) :
    ∃ pre m post, rsus = pre ++ m :: post ∧
      (greedySelect vpos vid vehicles rsus).2 = some m ∧
      (∀ x ∈ pre, calculate_signal_strength_base vpos x vid vehicles <
        calculate_signal_strength_base vpos m vid vehicles) ∧
      ∀ x ∈ rsus, calculate_signal_strength_base vpos x vid vehicles ≤
        calculate_signal_strength_base vpos m vid vehicles := by
  have hf : ∀ x : RSU, 0 < calculate_signal_strength_base vpos x vid vehicles :=
    fun x => calculate_signal_strength_base_pos vpos x vid vehicles
  rcases greedy_fold_first_max
      (fun x => calculate_signal_strength_base vpos x vid vehicles) hf rsus h
    with ⟨pre, m, post, h1, h2, h3, h4⟩
  refine ⟨pre, m, post, h1, ?_, h3, h4⟩
  have hsel : greedySelect vpos vid vehicles rsus =
      (calculate_signal_strength_base vpos m vid vehicles, some m) := h2
  rw [hsel]

/-- Witness for the amended C6 on a singleton roster. -/
theorem C6_greedy_first_encountered_max_witness :
    ([(⟨1, 4, 1⟩ : RSU)] ≠ []) ∧
      ∃ pre m post, [(⟨1, 4, 1⟩ : RSU)] = pre ++ m :: post ∧
        (greedySelect (1, 1) 0 [] [⟨1, 4, 1⟩]).2 = some m ∧
        (∀ x ∈ pre, calculate_signal_strength_base (1, 1) x 0 [] <
          calculate_signal_strength_base (1, 1) m 0 []) ∧
        ∀ x ∈ [(⟨1, 4, 1⟩ : RSU)],
          calculate_signal_strength_base (1, 1) x 0 [] ≤
            calculate_signal_strength_base (1, 1) m 0 [] :=
  ⟨by simp,
    C6_greedy_first_encountered_max (1, 1) 0 [] [⟨1, 4, 1⟩] (by simp)⟩

/-- Claim C6, counterexample: a roster listed out of identity order with a
strength tie — the vehicle is equidistant from RSU 2 (listed first) and
RSU 1.  Greedy-Current keeps the first-encountered maximum, RSU 2, not the
lowest-identity RSU 1. -/
theorem C6_counterexample :
    (greedySelect (1, 1) 0 [(0, 1, 1)] [⟨2, 6, 1⟩, ⟨1, 1, 6⟩]).2 =
        some ⟨2, 6, 1⟩ ∧
      calculate_signal_strength_base (1, 1) ⟨2, 6, 1⟩ 0 [(0, 1, 1)] =
        calculate_signal_strength_base (1, 1) ⟨1, 1, 6⟩ 0 [(0, 1, 1)] ∧
      (2 : Int) ≠ 1 := by
  have h2 : qsqrt (25 : ℚ) = 5 := qsqrt_eval _ _ (by norm_num) (by norm_num)
  have hb1 : check_for_obstacles_base (1, 1) ⟨2, 6, 1⟩ 0 [(0, 1, 1)] = false := by
    simp [check_for_obstacles_base]
  have hb2 : check_for_obstacles_base (1, 1) ⟨1, 1, 6⟩ 0 [(0, 1, 1)] = false := by
    simp [check_for_obstacles_base]
  have e1 : calculate_signal_strength_base (1, 1) ⟨2, 6, 1⟩ 0 [(0, 1, 1)]
      = 1 / 6 := by
    have h1 : distSq (1, 1) (⟨2, 6, 1⟩ : RSU) = 25 := by norm_num [distSq]
    unfold calculate_signal_strength_base
    rw [h1, if_neg (by norm_num), hb1, h2]
    norm_num [max_def]
  have e2 : calculate_signal_strength_base (1, 1) ⟨1, 1, 6⟩ 0 [(0, 1, 1)]
      = 1 / 6 := by
    have h1 : distSq (1, 1) (⟨1, 1, 6⟩ : RSU) = 25 := by norm_num [distSq]
    unfold calculate_signal_strength_base
    rw [h1, if_neg (by norm_num), hb2, h2]
    norm_num [max_def]
  refine ⟨?_, by rw [e1, e2], by norm_num⟩
  simp only [greedySelect, List.foldl_cons, List.foldl_nil, e1, e2]
  norm_num

theorem smartDecision_eq_of_foldl (pos : ℚ × ℚ) (speed c s : ℚ)
    (obs : List (ℚ × ℚ)) (rsus : List RSU) (st : SmartLoopState)
    (hst : rsus.foldl (smartStep pos speed c s obs) ⟨0, none, 0, 0⟩ = st) :
    smartDecision pos speed c s obs rsus =
      match st.best_rsu with
      | some r => some ⟨r.id, st.lastSignal, st.lastDuration, st.best_score⟩
      | none => none := by
  unfold smartDecision
  rw [hst]

/-- Claim C7: at a roster where the best-scoring RSU (id 1) is not the last
one evaluated, the emitted record carries the chosen RSU's id and score but
the LAST candidate's signal strength (1/2281 instead of the chosen RSU's
1/67) and connection duration (0 instead of 10) — the logged
signal/duration are the leftover loop variables, not the chosen RSU's
values. -/
theorem C7_record_mismatch :
    smartDecision (1, 0) 38 1 0 [(1, 0)] [⟨1, 11, 0⟩, ⟨2, -379, 0⟩] =
        some ⟨1, 1 / 2281, 0, 10 / 67⟩ ∧
      calculate_signal_strength (predict_future_position (1, 0) 38 1 0 2)
          ⟨1, 11, 0⟩ [(1, 0)] = 1 / 67 ∧
      estimate_connection_duration (1, 0) 38 1 0 ⟨1, 11, 0⟩ 10 1 = 10 ∧
      ((1 / 67 : ℚ) ≠ 1 / 2281) ∧ ((10 : ℕ) ≠ 0) := by
  have hpred : predict_future_position (1, 0) 38 1 0 2 = (77, 0) := by
    norm_num [predict_future_position, Prod.ext_iff]
  have hq66 : qsqrt (4356 : ℚ) = 66 := qsqrt_eval _ _ (by norm_num) (by norm_num)
  have hq456 : qsqrt (207936 : ℚ) = 456 :=
    qsqrt_eval _ _ (by norm_num) (by norm_num)
  have hb1 : check_for_obstacles (77, 0) ⟨1, 11, 0⟩ [(1, 0)] = false := by
    norm_num [check_for_obstacles, inRect]
  have hb2 : check_for_obstacles (77, 0) ⟨2, -379, 0⟩ [(1, 0)] = true := by
    norm_num [check_for_obstacles, inRect]
  have hc1 : calculate_signal_strength (77, 0) ⟨1, 11, 0⟩ [(1, 0)] = 1 / 67 := by
    have h1 : distSq (77, 0) (⟨1, 11, 0⟩ : RSU) = 4356 := by norm_num [distSq]
    unfold calculate_signal_strength
    rw [h1, if_neg (by norm_num), hb1, hq66]
    norm_num [max_def]
  have hc2 : calculate_signal_strength (77, 0) ⟨2, -379, 0⟩ [(1, 0)]
      = 1 / 2281 := by
    have h1 : distSq (77, 0) (⟨2, -379, 0⟩ : RSU) = 207936 := by
      norm_num [distSq]
    unfold calculate_signal_strength
    rw [h1, if_neg (by norm_num), hb2, hq456]
    norm_num [max_def]
  have hd1 : estimate_connection_duration (1, 0) 38 1 0 ⟨1, 11, 0⟩ 10 1 = 10 := by
    norm_num [estimate_connection_duration, examinedTicks, rolloutLoop,
      rolloutFail, List.range', predict_future_position, distSq]
  have hd2 : estimate_connection_duration (1, 0) 38 1 0 ⟨2, -379, 0⟩ 10 1 = 0 := by
    norm_num [estimate_connection_duration, examinedTicks, rolloutLoop,
      rolloutFail, List.range', predict_future_position, distSq]
  refine ⟨?_, hpred ▸ hc1, hd1, by norm_num, by norm_num⟩
  have hstep1 : smartStep (1, 0) 38 1 0 [(1, 0)] ⟨0, none, 0, 0⟩ ⟨1, 11, 0⟩ =
      ⟨10 / 67, some ⟨1, 11, 0⟩, 1 / 67, 10⟩ := by
    unfold smartStep
    rw [hpred, hc1, hd1, if_pos (by push_cast; norm_num)]
    push_cast
    norm_num
  have hstep2 : smartStep (1, 0) 38 1 0 [(1, 0)]
      ⟨10 / 67, some ⟨1, 11, 0⟩, 1 / 67, 10⟩ ⟨2, -379, 0⟩ =
      ⟨10 / 67, some ⟨1, 11, 0⟩, 1 / 2281, 0⟩ := by
    unfold smartStep
    rw [hpred, hc2, hd2, if_neg (by push_cast; norm_num)]
  have hfold : List.foldl (smartStep (1, 0) 38 1 0 [(1, 0)]) ⟨0, none, 0, 0⟩
      [⟨1, 11, 0⟩, ⟨2, -379, 0⟩] =
      (⟨10 / 67, some ⟨1, 11, 0⟩, 1 / 2281, 0⟩ : SmartLoopState) := by
    rw [List.foldl_cons, List.foldl_cons, List.foldl_nil, hstep1, hstep2]
  rw [smartDecision_eq_of_foldl (1, 0) 38 1 0 [(1, 0)]
    [⟨1, 11, 0⟩, ⟨2, -379, 0⟩] ⟨10 / 67, some ⟨1, 11, 0⟩, 1 / 2281, 0⟩ hfold]

theorem dagBuild_zero (pos : ℚ × ℚ) (speed c s timestep : ℚ)
    (rsus : List RSU) :
    dagBuild pos speed c s timestep rsus 0 = ⟨[], [TNode.start]⟩ := rfl

theorem dagBuild_succ (pos : ℚ × ℚ) (speed c s timestep : ℚ)
    (rsus : List RSU) (n : ℕ) :
    dagBuild pos speed c s timestep rsus (n + 1) =
      dagStep pos speed c s timestep rsus
        (dagBuild pos speed c s timestep rsus n) (n + 1) := by
  unfold dagBuild
  rw [List.range'_concat, List.foldl_append, List.foldl_cons, List.foldl_nil]
  rw [show 1 + 1 * n = n + 1 by omega]

theorem liveAt_succ (pos : ℚ × ℚ) (speed c s timestep : ℚ)
    (rsus : List RSU) (n : ℕ) :
    liveAt pos speed c s timestep rsus (n + 1) =
      if tickLayer pos speed c s timestep rsus (n + 1) = [] then
        liveAt pos speed c s timestep rsus n
      else tickLayer pos speed c s timestep rsus (n + 1) := by
  unfold liveAt
  rw [dagBuild_succ]
  rfl

theorem liveAt_ne_nil (pos : ℚ × ℚ) (speed c s timestep : ℚ)
    (rsus : List RSU) : ∀ n, liveAt pos speed c s timestep rsus n ≠ [] := by
  intro n
  induction n with
  | zero => simp [liveAt, dagBuild_zero]
  | succ k ih =>
    by_cases h : tickLayer pos speed c s timestep rsus (k + 1) = []
    · rw [liveAt_succ, if_pos h]
      exact ih
    · rw [liveAt_succ, if_neg h]
      exact h

/-- Claim C3: at every tick `t ≥ 1` of the construction, if no RSU is in
range then the live set is the unchanged live set of tick `t - 1`, and the
live set is never empty. -/
theorem C3_live_set_carry_forward (pos : ℚ × ℚ) (speed c s timestep : ℚ)
    (rsus : List RSU) (t : ℕ) (ht : 1 ≤ t) :
    (tickLayer pos speed c s timestep rsus t = [] →
        liveAt pos speed c s timestep rsus t =
          liveAt pos speed c s timestep rsus (t - 1)) ∧
      liveAt pos speed c s timestep rsus t ≠ [] := by
  obtain ⟨k, rfl⟩ : ∃ k, t = k + 1 := ⟨t - 1, by omega⟩
  constructor
  · intro h
    rw [liveAt_succ, if_pos h]
    norm_num
  · exact liveAt_ne_nil pos speed c s timestep rsus (k + 1)

/-- Witness for C3 at tick 3 of a concrete no-coverage configuration. -/
theorem C3_live_set_carry_forward_witness :
    (1 : ℕ) ≤ 3 ∧
      ((tickLayer (1, 0) 0 1 0 1 [⟨1, 2000, 0⟩] 3 = [] →
          liveAt (1, 0) 0 1 0 1 [⟨1, 2000, 0⟩] 3 =
            liveAt (1, 0) 0 1 0 1 [⟨1, 2000, 0⟩] (3 - 1)) ∧
        liveAt (1, 0) 0 1 0 1 [⟨1, 2000, 0⟩] 3 ≠ []) :=
  ⟨by norm_num,
    C3_live_set_carry_forward (1, 0) 0 1 0 1 [⟨1, 2000, 0⟩] 3 (by norm_num)⟩

theorem dagBuild_all_empty (pos : ℚ × ℚ) (speed c s timestep : ℚ)
    (rsus : List RSU) (horizon : ℕ)
    (h : ∀ t ∈ List.range' 1 horizon,
      tickLayer pos speed c s timestep rsus t = []) :
    dagBuild pos speed c s timestep rsus horizon = ⟨[], [TNode.start]⟩ := by
  unfold dagBuild
  have key : ∀ (L : List ℕ) (st : DagState),
      (∀ t ∈ L, tickLayer pos speed c s timestep rsus t = []) →
      L.foldl (dagStep pos speed c s timestep rsus) st = st := by
    intro L
    induction L with
    | nil => intro st _; rfl
    | cons a L ih =>
      intro st hL
      rw [List.foldl_cons]
      have ha := hL a (List.mem_cons_self a L)
      have hfil : (rsus.filter fun r =>
          distSq (predict_future_position pos speed c s ((a : ℚ) * timestep)) r
            ≤ 160000) = [] := by
        unfold tickLayer at ha
        exact List.map_eq_nil_iff.mp ha
      have hstep : dagStep pos speed c s timestep rsus st a = st := by
        unfold dagStep
        rw [hfil]
        simp [ha]
      rw [hstep]
      exact ih st fun t ht => hL t (List.mem_cons_of_mem a ht)
  exact key _ _ h

theorem dagEdges_all_empty (pos : ℚ × ℚ) (speed c s timestep : ℚ)
    (rsus : List RSU) (horizon : ℕ)
    (h : ∀ t ∈ List.range' 1 horizon,
      tickLayer pos speed c s timestep rsus t = []) :
    dagEdges pos speed c s timestep rsus horizon =
      [(TNode.start, TNode.stop, 0)] := by
  unfold dagEdges
  rw [dagBuild_all_empty pos speed c s timestep rsus horizon h]
  rfl

theorem pathsFrom_self (edges : List TEdge) (fuel : ℕ) (a : TNode) :
    pathsFrom edges fuel a a = [[a]] := by
  cases fuel <;> simp [pathsFrom]

theorem pathsFrom_succ (edges : List TEdge) (fuel : ℕ) (a b : TNode)
    (hab : a ≠ b) :
    pathsFrom edges (fuel + 1) a b =
      (edges.filter fun e => e.1 = a).flatMap fun e =>
        (pathsFrom edges fuel e.2.1 b).map fun p => a :: p := by
  simp only [pathsFrom]
  rw [if_neg hab]

theorem schedulePaths_all_empty (pos : ℚ × ℚ) (speed c s timestep : ℚ)
    (rsus : List RSU) (horizon : ℕ)
    (h : ∀ t ∈ List.range' 1 horizon,
      tickLayer pos speed c s timestep rsus t = []) :
    schedulePaths pos speed c s timestep rsus horizon =
      [[TNode.start, TNode.stop]] := by
  unfold schedulePaths
  rw [dagEdges_all_empty pos speed c s timestep rsus horizon h]
  show pathsFrom _ (horizon + 1 + 1) _ _ = _
  rw [pathsFrom_succ _ _ _ _ (by simp)]
  simp [pathsFrom_self]

theorem construct_dag_no_coverage (pos : ℚ × ℚ) (speed c s timestep : ℚ)
    (rsus : List RSU) (horizon : ℕ)
    (h : ∀ t ∈ List.range' 1 horizon,
      tickLayer pos speed c s timestep rsus t = []) :
    construct_dag pos speed c s timestep rsus horizon =
      [TNode.start, TNode.stop] := by
  unfold construct_dag
  rw [schedulePaths_all_empty pos speed c s timestep rsus horizon h]
  rfl

/-- Claim C2, amended: when no RSU is in range at any tick of the horizon,
`construct_dag` returns the two-node sentinel path
`[(start, 0), (end, H+1)]` — not the one-node path `[(start, 0)]`.  The
carry-forward keeps `start` in the live set, `end` is always reachable, and
the `NetworkXNoPath` fallback that would produce `[(start, 0)]` is dead
code. -/
theorem C2_no_coverage_two_node_path (pos : ℚ × ℚ) (speed c s timestep : ℚ)
    (rsus : List RSU) (horizon : ℕ)
    (h : ∀ t ∈ List.range' 1 horizon,
      tickLayer pos speed c s timestep rsus t = []) :
    construct_dag pos speed c s timestep rsus horizon =
        [TNode.start, TNode.stop] ∧
      construct_dag pos speed c s timestep rsus horizon ≠ [TNode.start] := by
  have hc := construct_dag_no_coverage pos speed c s timestep rsus horizon h
  refine ⟨hc, ?_⟩
  rw [hc]
  simp

/-- Witness for the amended C2 on the empty roster. -/
theorem C2_no_coverage_two_node_path_witness :
    (∀ t ∈ List.range' 1 10, tickLayer (1, 0) 0 1 0 1 [] t = []) ∧
      (construct_dag (1, 0) 0 1 0 1 [] 10 = [TNode.start, TNode.stop] ∧
        construct_dag (1, 0) 0 1 0 1 [] 10 ≠ [TNode.start]) :=
  ⟨fun _ _ => rfl, C2_no_coverage_two_node_path (1, 0) 0 1 0 1 [] 10
    fun _ _ => rfl⟩

/-- Claim C2, counterexample: a single RSU 1999 units away from a stationary
vehicle is outside the 400-unit range at every tick 1..10, yet
`construct_dag` returns `[(start, 0), (end, 11)]`, not the one-node path
`[(start, 0)]` the claim asserts. -/
theorem C2_counterexample :
    (∀ t ∈ List.range' 1 10, tickLayer (1, 0) 0 1 0 1 [⟨1, 2000, 0⟩] t = []) ∧
      construct_dag (1, 0) 0 1 0 1 [⟨1, 2000, 0⟩] 10 =
        [TNode.start, TNode.stop] ∧
      construct_dag (1, 0) 0 1 0 1 [⟨1, 2000, 0⟩] 10 ≠ [TNode.start] := by
  have hyp : ∀ t ∈ List.range' 1 10,
      tickLayer (1, 0) 0 1 0 1 [⟨1, 2000, 0⟩] t = [] := by
    intro t _
    have hc : ¬(distSq
        (predict_future_position (1, 0) 0 1 0 (t : ℚ)) ⟨1, 2000, 0⟩
          ≤ 160000) := by
      norm_num [predict_future_position, distSq]
    simp [tickLayer, List.filter, hc]
  have hc := construct_dag_no_coverage (1, 0) 0 1 0 1 [⟨1, 2000, 0⟩] 10 hyp
  refine ⟨hyp, hc, ?_⟩
  rw [hc]
  simp

theorem dagEdges_weights (pos : ℚ × ℚ) (speed c s timestep : ℚ)
    (rsus : List RSU) (horizon : ℕ) :
    ∀ e ∈ dagEdges pos speed c s timestep rsus horizon,
      (e.2.1 = TNode.stop ∧ e.2.2 = 0) ∨ e.2.2 < 0 := by
  have key : ∀ (L : List ℕ) (st : DagState),
      (∀ e ∈ st.edges, e.2.2 < 0) →
      ∀ e ∈ (L.foldl (dagStep pos speed c s timestep rsus) st).edges,
        e.2.2 < 0 := by
    intro L
    induction L with
    | nil => intro st hst; exact hst
    | cons a L ih =>
      intro st hst
      rw [List.foldl_cons]
      apply ih
      intro e' he'
      rcases List.mem_append.mp he' with h | h
      · exact hst e' h
      · rcases List.mem_flatMap.mp h with ⟨r, hr, hmap⟩
        rcases List.mem_map.mp hmap with ⟨ln, hln, rfl⟩
        have hq := qsqrt_nonneg (distSq
          (predict_future_position pos speed c s ((a : ℚ) * timestep)) r)
        have hpos : (0 : ℚ) < 1 / (1 + qsqrt (distSq
            (predict_future_position pos speed c s ((a : ℚ) * timestep)) r)) :=
          div_pos one_pos (by linarith)
        show -(1 / (1 + qsqrt (distSq
          (predict_future_position pos speed c s ((a : ℚ) * timestep)) r))) < 0
        linarith
  intro e he
  rcases List.mem_append.mp he with h | h
  · exact Or.inr (key (List.range' 1 horizon) ⟨[], [TNode.start]⟩
      (by intro e' he'; simp at he') e h)
  · rcases List.mem_map.mp h with ⟨ln, hln, rfl⟩
    exact Or.inl ⟨rfl, rfl⟩

theorem pathsFrom_mem_cons (edges : List TEdge) (fuel : ℕ) (a b : TNode)
    (hab : a ≠ b) (e : TEdge) (he : e ∈ edges) (hea : e.1 = a)
    (p : List TNode) (hp : p ∈ pathsFrom edges fuel e.2.1 b) :
    (a :: p) ∈ pathsFrom edges (fuel + 1) a b := by
  rw [pathsFrom_succ edges fuel a b hab]
  exact List.mem_flatMap.mpr
    ⟨e, List.mem_filter.mpr ⟨he, by simp [hea]⟩, List.mem_map.mpr ⟨p, hp, rfl⟩⟩

/-- The edge list `construct_dag` builds for the C1 scenario: vehicle at
(1, 0) moving at speed 40 along the x-axis (predicted position `(1 + 40t, 0)`
at tick `t`), RSU 1 at (151, 0) and RSU 2 at (241, 0).  Both RSUs are within
the 400-unit range at every tick 1..10; RSU 1 is closer up to tick 4 and
RSU 2 from tick 5 on (their predicted-quality curves cross between ticks 4
and 5). -/
def exEdges : List TEdge :=
  [(TNode.start, TNode.rsu 1 1, -(1 / 111)),
   (TNode.start, TNode.rsu 2 1, -(1 / 201)),
   (TNode.rsu 1 1, TNode.rsu 1 2, -(1 / 71)),
   (TNode.rsu 2 1, TNode.rsu 1 2, -(1 / 71)),
   (TNode.rsu 1 1, TNode.rsu 2 2, -(1 / 161)),
   (TNode.rsu 2 1, TNode.rsu 2 2, -(1 / 161)),
   (TNode.rsu 1 2, TNode.rsu 1 3, -(1 / 31)),
   (TNode.rsu 2 2, TNode.rsu 1 3, -(1 / 31)),
   (TNode.rsu 1 2, TNode.rsu 2 3, -(1 / 121)),
   (TNode.rsu 2 2, TNode.rsu 2 3, -(1 / 121)),
   (TNode.rsu 1 3, TNode.rsu 1 4, -(1 / 11)),
   (TNode.rsu 2 3, TNode.rsu 1 4, -(1 / 11)),
   (TNode.rsu 1 3, TNode.rsu 2 4, -(1 / 81)),
   (TNode.rsu 2 3, TNode.rsu 2 4, -(1 / 81)),
   (TNode.rsu 1 4, TNode.rsu 1 5, -(1 / 51)),
   (TNode.rsu 2 4, TNode.rsu 1 5, -(1 / 51)),
   (TNode.rsu 1 4, TNode.rsu 2 5, -(1 / 41)),
   (TNode.rsu 2 4, TNode.rsu 2 5, -(1 / 41)),
   (TNode.rsu 1 5, TNode.rsu 1 6, -(1 / 91)),
   (TNode.rsu 2 5, TNode.rsu 1 6, -(1 / 91)),
   (TNode.rsu 1 5, TNode.rsu 2 6, -(1 / 1)),
   (TNode.rsu 2 5, TNode.rsu 2 6, -(1 / 1)),
   (TNode.rsu 1 6, TNode.rsu 1 7, -(1 / 131)),
   (TNode.rsu 2 6, TNode.rsu 1 7, -(1 / 131)),
   (TNode.rsu 1 6, TNode.rsu 2 7, -(1 / 41)),
   (TNode.rsu 2 6, TNode.rsu 2 7, -(1 / 41)),
   (TNode.rsu 1 7, TNode.rsu 1 8, -(1 / 171)),
   (TNode.rsu 2 7, TNode.rsu 1 8, -(1 / 171)),
   (TNode.rsu 1 7, TNode.rsu 2 8, -(1 / 81)),
   (TNode.rsu 2 7, TNode.rsu 2 8, -(1 / 81)),
   (TNode.rsu 1 8, TNode.rsu 1 9, -(1 / 211)),
   (TNode.rsu 2 8, TNode.rsu 1 9, -(1 / 211)),
   (TNode.rsu 1 8, TNode.rsu 2 9, -(1 / 121)),
   (TNode.rsu 2 8, TNode.rsu 2 9, -(1 / 121)),
   (TNode.rsu 1 9, TNode.rsu 1 10, -(1 / 251)),
   (TNode.rsu 2 9, TNode.rsu 1 10, -(1 / 251)),
   (TNode.rsu 1 9, TNode.rsu 2 10, -(1 / 161)),
   (TNode.rsu 2 9, TNode.rsu 2 10, -(1 / 161)),
   (TNode.rsu 1 10, TNode.stop, 0),
   (TNode.rsu 2 10, TNode.stop, 0)]

/-- The maximum-quality schedule of the C1 scenario: RSU 1 for ticks 1–4,
then RSU 2 from tick 5 to the end of the horizon — a single handover at
exactly tick 5. -/
def exSwitch : List TNode :=
  [TNode.start,
   TNode.rsu 1 1,
   TNode.rsu 1 2,
   TNode.rsu 1 3,
   TNode.rsu 1 4,
   TNode.rsu 2 5,
   TNode.rsu 2 6,
   TNode.rsu 2 7,
   TNode.rsu 2 8,
   TNode.rsu 2 9,
   TNode.rsu 2 10,
   TNode.stop]

/-- The schedule that commits to RSU 1 for the whole horizon. -/
def exCommit1 : List TNode :=
  [TNode.start,
   TNode.rsu 1 1,
   TNode.rsu 1 2,
   TNode.rsu 1 3,
   TNode.rsu 1 4,
   TNode.rsu 1 5,
   TNode.rsu 1 6,
   TNode.rsu 1 7,
   TNode.rsu 1 8,
   TNode.rsu 1 9,
   TNode.rsu 1 10,
   TNode.stop]

/-- The schedule that commits to RSU 2 for the whole horizon. -/
def exCommit2 : List TNode :=
  [TNode.start,
   TNode.rsu 2 1,
   TNode.rsu 2 2,
   TNode.rsu 2 3,
   TNode.rsu 2 4,
   TNode.rsu 2 5,
   TNode.rsu 2 6,
   TNode.rsu 2 7,
   TNode.rsu 2 8,
   TNode.rsu 2 9,
   TNode.rsu 2 10,
   TNode.stop]

/-- Claim C1: (general part) every edge of the time-expanded graph that
enters an RSU node has strictly negative weight — the nonnegative-weight
precondition of the library shortest-path routine the source calls holds on
no input with any candidate RSU; (scenario part) in the crossing scenario
the switch-at-tick-5 schedule is a start-to-end path of the graph and its
total weight is strictly smaller (total predicted quality strictly larger)
than committing to either single RSU for the whole horizon. -/
theorem C1_negative_weights_and_optimal_switch :
    (∀ (pos : ℚ × ℚ) (speed c s timestep : ℚ) (rsus : List RSU) (horizon : ℕ),
        ∀ e ∈ dagEdges pos speed c s timestep rsus horizon,
          (e.2.1 = TNode.stop ∧ e.2.2 = 0) ∨ e.2.2 < 0) ∧
      exSwitch ∈ schedulePaths (1, 0) 40 1 0 1 [⟨1, 151, 0⟩, ⟨2, 241, 0⟩] 10 ∧
      pathWeight (dagEdges (1, 0) 40 1 0 1 [⟨1, 151, 0⟩, ⟨2, 241, 0⟩] 10) exSwitch <
        pathWeight (dagEdges (1, 0) 40 1 0 1 [⟨1, 151, 0⟩, ⟨2, 241, 0⟩] 10) exCommit1 ∧
      pathWeight (dagEdges (1, 0) 40 1 0 1 [⟨1, 151, 0⟩, ⟨2, 241, 0⟩] 10) exSwitch <
        pathWeight (dagEdges (1, 0) 40 1 0 1 [⟨1, 151, 0⟩, ⟨2, 241, 0⟩] 10) exCommit2 := by
  have hq0 : qsqrt ((0 : ℚ)) = 0 :=
    qsqrt_eval _ _ (by norm_num) (by norm_num)
  have hq10 : qsqrt ((100 : ℚ)) = 10 :=
    qsqrt_eval _ _ (by norm_num) (by norm_num)
  have hq30 : qsqrt ((900 : ℚ)) = 30 :=
    qsqrt_eval _ _ (by norm_num) (by norm_num)
  have hq40 : qsqrt ((1600 : ℚ)) = 40 :=
    qsqrt_eval _ _ (by norm_num) (by norm_num)
  have hq50 : qsqrt ((2500 : ℚ)) = 50 :=
    qsqrt_eval _ _ (by norm_num) (by norm_num)
  have hq70 : qsqrt ((4900 : ℚ)) = 70 :=
    qsqrt_eval _ _ (by norm_num) (by norm_num)
  have hq80 : qsqrt ((6400 : ℚ)) = 80 :=
    qsqrt_eval _ _ (by norm_num) (by norm_num)
  have hq90 : qsqrt ((8100 : ℚ)) = 90 :=
    qsqrt_eval _ _ (by norm_num) (by norm_num)
  have hq110 : qsqrt ((12100 : ℚ)) = 110 :=
    qsqrt_eval _ _ (by norm_num) (by norm_num)
  have hq120 : qsqrt ((14400 : ℚ)) = 120 :=
    qsqrt_eval _ _ (by norm_num) (by norm_num)
  have hq130 : qsqrt ((16900 : ℚ)) = 130 :=
    qsqrt_eval _ _ (by norm_num) (by norm_num)
  have hq160 : qsqrt ((25600 : ℚ)) = 160 :=
    qsqrt_eval _ _ (by norm_num) (by norm_num)
  have hq170 : qsqrt ((28900 : ℚ)) = 170 :=
    qsqrt_eval _ _ (by norm_num) (by norm_num)
  have hq200 : qsqrt ((40000 : ℚ)) = 200 :=
    qsqrt_eval _ _ (by norm_num) (by norm_num)
  have hq210 : qsqrt ((44100 : ℚ)) = 210 :=
    qsqrt_eval _ _ (by norm_num) (by norm_num)
  have hq250 : qsqrt ((62500 : ℚ)) = 250 :=
    qsqrt_eval _ _ (by norm_num) (by norm_num)
  have b0 : dagBuild (1, 0) 40 1 0 1 [⟨1, 151, 0⟩, ⟨2, 241, 0⟩] 0 = ⟨[], [TNode.start]⟩ := rfl
  have b1 : dagBuild (1, 0) 40 1 0 1 [⟨1, 151, 0⟩, ⟨2, 241, 0⟩] 1 =
      ⟨[(TNode.start, TNode.rsu 1 1, -(1 / 111)),
       (TNode.start, TNode.rsu 2 1, -(1 / 201))],
       [TNode.rsu 1 1, TNode.rsu 2 1]⟩ := by
    rw [dagBuild_succ, b0]
    norm_num [dagStep, tickLayer, List.filter, predict_future_position, distSq,
      hq0, hq10, hq30, hq40, hq50, hq70, hq80, hq90, hq110, hq120, hq130, hq160, hq170, hq200, hq210, hq250]
    all_goals simp
  have b2 : dagBuild (1, 0) 40 1 0 1 [⟨1, 151, 0⟩, ⟨2, 241, 0⟩] 2 =
      ⟨[(TNode.start, TNode.rsu 1 1, -(1 / 111)),
       (TNode.start, TNode.rsu 2 1, -(1 / 201)),
       (TNode.rsu 1 1, TNode.rsu 1 2, -(1 / 71)),
       (TNode.rsu 2 1, TNode.rsu 1 2, -(1 / 71)),
       (TNode.rsu 1 1, TNode.rsu 2 2, -(1 / 161)),
       (TNode.rsu 2 1, TNode.rsu 2 2, -(1 / 161))],
       [TNode.rsu 1 2, TNode.rsu 2 2]⟩ := by
    rw [dagBuild_succ, b1]
    norm_num [dagStep, tickLayer, List.filter, predict_future_position, distSq,
      hq0, hq10, hq30, hq40, hq50, hq70, hq80, hq90, hq110, hq120, hq130, hq160, hq170, hq200, hq210, hq250]
    all_goals simp
  have b3 : dagBuild (1, 0) 40 1 0 1 [⟨1, 151, 0⟩, ⟨2, 241, 0⟩] 3 =
      ⟨[(TNode.start, TNode.rsu 1 1, -(1 / 111)),
       (TNode.start, TNode.rsu 2 1, -(1 / 201)),
       (TNode.rsu 1 1, TNode.rsu 1 2, -(1 / 71)),
       (TNode.rsu 2 1, TNode.rsu 1 2, -(1 / 71)),
       (TNode.rsu 1 1, TNode.rsu 2 2, -(1 / 161)),
       (TNode.rsu 2 1, TNode.rsu 2 2, -(1 / 161)),
       (TNode.rsu 1 2, TNode.rsu 1 3, -(1 / 31)),
       (TNode.rsu 2 2, TNode.rsu 1 3, -(1 / 31)),
       (TNode.rsu 1 2, TNode.rsu 2 3, -(1 / 121)),
       (TNode.rsu 2 2, TNode.rsu 2 3, -(1 / 121))],
       [TNode.rsu 1 3, TNode.rsu 2 3]⟩ := by
    rw [dagBuild_succ, b2]
    norm_num [dagStep, tickLayer, List.filter, predict_future_position, distSq,
      hq0, hq10, hq30, hq40, hq50, hq70, hq80, hq90, hq110, hq120, hq130, hq160, hq170, hq200, hq210, hq250]
    all_goals simp
  have b4 : dagBuild (1, 0) 40 1 0 1 [⟨1, 151, 0⟩, ⟨2, 241, 0⟩] 4 =
      ⟨[(TNode.start, TNode.rsu 1 1, -(1 / 111)),
       (TNode.start, TNode.rsu 2 1, -(1 / 201)),
       (TNode.rsu 1 1, TNode.rsu 1 2, -(1 / 71)),
       (TNode.rsu 2 1, TNode.rsu 1 2, -(1 / 71)),
       (TNode.rsu 1 1, TNode.rsu 2 2, -(1 / 161)),
       (TNode.rsu 2 1, TNode.rsu 2 2, -(1 / 161)),
       (TNode.rsu 1 2, TNode.rsu 1 3, -(1 / 31)),
       (TNode.rsu 2 2, TNode.rsu 1 3, -(1 / 31)),
       (TNode.rsu 1 2, TNode.rsu 2 3, -(1 / 121)),
       (TNode.rsu 2 2, TNode.rsu 2 3, -(1 / 121)),
       (TNode.rsu 1 3, TNode.rsu 1 4, -(1 / 11)),
       (TNode.rsu 2 3, TNode.rsu 1 4, -(1 / 11)),
       (TNode.rsu 1 3, TNode.rsu 2 4, -(1 / 81)),
       (TNode.rsu 2 3, TNode.rsu 2 4, -(1 / 81))],
       [TNode.rsu 1 4, TNode.rsu 2 4]⟩ := by
    rw [dagBuild_succ, b3]
    norm_num [dagStep, tickLayer, List.filter, predict_future_position, distSq,
      hq0, hq10, hq30, hq40, hq50, hq70, hq80, hq90, hq110, hq120, hq130, hq160, hq170, hq200, hq210, hq250]
    all_goals simp
  have b5 : dagBuild (1, 0) 40 1 0 1 [⟨1, 151, 0⟩, ⟨2, 241, 0⟩] 5 =
      ⟨[(TNode.start, TNode.rsu 1 1, -(1 / 111)),
       (TNode.start, TNode.rsu 2 1, -(1 / 201)),
       (TNode.rsu 1 1, TNode.rsu 1 2, -(1 / 71)),
       (TNode.rsu 2 1, TNode.rsu 1 2, -(1 / 71)),
       (TNode.rsu 1 1, TNode.rsu 2 2, -(1 / 161)),
       (TNode.rsu 2 1, TNode.rsu 2 2, -(1 / 161)),
       (TNode.rsu 1 2, TNode.rsu 1 3, -(1 / 31)),
       (TNode.rsu 2 2, TNode.rsu 1 3, -(1 / 31)),
       (TNode.rsu 1 2, TNode.rsu 2 3, -(1 / 121)),
       (TNode.rsu 2 2, TNode.rsu 2 3, -(1 / 121)),
       (TNode.rsu 1 3, TNode.rsu 1 4, -(1 / 11)),
       (TNode.rsu 2 3, TNode.rsu 1 4, -(1 / 11)),
       (TNode.rsu 1 3, TNode.rsu 2 4, -(1 / 81)),
       (TNode.rsu 2 3, TNode.rsu 2 4, -(1 / 81)),
       (TNode.rsu 1 4, TNode.rsu 1 5, -(1 / 51)),
       (TNode.rsu 2 4, TNode.rsu 1 5, -(1 / 51)),
       (TNode.rsu 1 4, TNode.rsu 2 5, -(1 / 41)),
       (TNode.rsu 2 4, TNode.rsu 2 5, -(1 / 41))],
       [TNode.rsu 1 5, TNode.rsu 2 5]⟩ := by
    rw [dagBuild_succ, b4]
    norm_num [dagStep, tickLayer, List.filter, predict_future_position, distSq,
      hq0, hq10, hq30, hq40, hq50, hq70, hq80, hq90, hq110, hq120, hq130, hq160, hq170, hq200, hq210, hq250]
    all_goals simp
  have b6 : dagBuild (1, 0) 40 1 0 1 [⟨1, 151, 0⟩, ⟨2, 241, 0⟩] 6 =
      ⟨[(TNode.start, TNode.rsu 1 1, -(1 / 111)),
       (TNode.start, TNode.rsu 2 1, -(1 / 201)),
       (TNode.rsu 1 1, TNode.rsu 1 2, -(1 / 71)),
       (TNode.rsu 2 1, TNode.rsu 1 2, -(1 / 71)),
       (TNode.rsu 1 1, TNode.rsu 2 2, -(1 / 161)),
       (TNode.rsu 2 1, TNode.rsu 2 2, -(1 / 161)),
       (TNode.rsu 1 2, TNode.rsu 1 3, -(1 / 31)),
       (TNode.rsu 2 2, TNode.rsu 1 3, -(1 / 31)),
       (TNode.rsu 1 2, TNode.rsu 2 3, -(1 / 121)),
       (TNode.rsu 2 2, TNode.rsu 2 3, -(1 / 121)),
       (TNode.rsu 1 3, TNode.rsu 1 4, -(1 / 11)),
       (TNode.rsu 2 3, TNode.rsu 1 4, -(1 / 11)),
       (TNode.rsu 1 3, TNode.rsu 2 4, -(1 / 81)),
       (TNode.rsu 2 3, TNode.rsu 2 4, -(1 / 81)),
       (TNode.rsu 1 4, TNode.rsu 1 5, -(1 / 51)),
       (TNode.rsu 2 4, TNode.rsu 1 5, -(1 / 51)),
       (TNode.rsu 1 4, TNode.rsu 2 5, -(1 / 41)),
       (TNode.rsu 2 4, TNode.rsu 2 5, -(1 / 41)),
       (TNode.rsu 1 5, TNode.rsu 1 6, -(1 / 91)),
       (TNode.rsu 2 5, TNode.rsu 1 6, -(1 / 91)),
       (TNode.rsu 1 5, TNode.rsu 2 6, -(1 / 1)),
       (TNode.rsu 2 5, TNode.rsu 2 6, -(1 / 1))],
       [TNode.rsu 1 6, TNode.rsu 2 6]⟩ := by
    rw [dagBuild_succ, b5]
    norm_num [dagStep, tickLayer, List.filter, predict_future_position, distSq,
      hq0, hq10, hq30, hq40, hq50, hq70, hq80, hq90, hq110, hq120, hq130, hq160, hq170, hq200, hq210, hq250]
    all_goals simp
  have b7 : dagBuild (1, 0) 40 1 0 1 [⟨1, 151, 0⟩, ⟨2, 241, 0⟩] 7 =
      ⟨[(TNode.start, TNode.rsu 1 1, -(1 / 111)),
       (TNode.start, TNode.rsu 2 1, -(1 / 201)),
       (TNode.rsu 1 1, TNode.rsu 1 2, -(1 / 71)),
       (TNode.rsu 2 1, TNode.rsu 1 2, -(1 / 71)),
       (TNode.rsu 1 1, TNode.rsu 2 2, -(1 / 161)),
       (TNode.rsu 2 1, TNode.rsu 2 2, -(1 / 161)),
       (TNode.rsu 1 2, TNode.rsu 1 3, -(1 / 31)),
       (TNode.rsu 2 2, TNode.rsu 1 3, -(1 / 31)),
       (TNode.rsu 1 2, TNode.rsu 2 3, -(1 / 121)),
       (TNode.rsu 2 2, TNode.rsu 2 3, -(1 / 121)),
       (TNode.rsu 1 3, TNode.rsu 1 4, -(1 / 11)),
       (TNode.rsu 2 3, TNode.rsu 1 4, -(1 / 11)),
       (TNode.rsu 1 3, TNode.rsu 2 4, -(1 / 81)),
       (TNode.rsu 2 3, TNode.rsu 2 4, -(1 / 81)),
       (TNode.rsu 1 4, TNode.rsu 1 5, -(1 / 51)),
       (TNode.rsu 2 4, TNode.rsu 1 5, -(1 / 51)),
       (TNode.rsu 1 4, TNode.rsu 2 5, -(1 / 41)),
       (TNode.rsu 2 4, TNode.rsu 2 5, -(1 / 41)),
       (TNode.rsu 1 5, TNode.rsu 1 6, -(1 / 91)),
       (TNode.rsu 2 5, TNode.rsu 1 6, -(1 / 91)),
       (TNode.rsu 1 5, TNode.rsu 2 6, -(1 / 1)),
       (TNode.rsu 2 5, TNode.rsu 2 6, -(1 / 1)),
       (TNode.rsu 1 6, TNode.rsu 1 7, -(1 / 131)),
       (TNode.rsu 2 6, TNode.rsu 1 7, -(1 / 131)),
       (TNode.rsu 1 6, TNode.rsu 2 7, -(1 / 41)),
       (TNode.rsu 2 6, TNode.rsu 2 7, -(1 / 41))],
       [TNode.rsu 1 7, TNode.rsu 2 7]⟩ := by
    rw [dagBuild_succ, b6]
    norm_num [dagStep, tickLayer, List.filter, predict_future_position, distSq,
      hq0, hq10, hq30, hq40, hq50, hq70, hq80, hq90, hq110, hq120, hq130, hq160, hq170, hq200, hq210, hq250]
    all_goals simp
  have b8 : dagBuild (1, 0) 40 1 0 1 [⟨1, 151, 0⟩, ⟨2, 241, 0⟩] 8 =
      ⟨[(TNode.start, TNode.rsu 1 1, -(1 / 111)),
       (TNode.start, TNode.rsu 2 1, -(1 / 201)),
       (TNode.rsu 1 1, TNode.rsu 1 2, -(1 / 71)),
       (TNode.rsu 2 1, TNode.rsu 1 2, -(1 / 71)),
       (TNode.rsu 1 1, TNode.rsu 2 2, -(1 / 161)),
       (TNode.rsu 2 1, TNode.rsu 2 2, -(1 / 161)),
       (TNode.rsu 1 2, TNode.rsu 1 3, -(1 / 31)),
       (TNode.rsu 2 2, TNode.rsu 1 3, -(1 / 31)),
       (TNode.rsu 1 2, TNode.rsu 2 3, -(1 / 121)),
       (TNode.rsu 2 2, TNode.rsu 2 3, -(1 / 121)),
       (TNode.rsu 1 3, TNode.rsu 1 4, -(1 / 11)),
       (TNode.rsu 2 3, TNode.rsu 1 4, -(1 / 11)),
       (TNode.rsu 1 3, TNode.rsu 2 4, -(1 / 81)),
       (TNode.rsu 2 3, TNode.rsu 2 4, -(1 / 81)),
       (TNode.rsu 1 4, TNode.rsu 1 5, -(1 / 51)),
       (TNode.rsu 2 4, TNode.rsu 1 5, -(1 / 51)),
       (TNode.rsu 1 4, TNode.rsu 2 5, -(1 / 41)),
       (TNode.rsu 2 4, TNode.rsu 2 5, -(1 / 41)),
       (TNode.rsu 1 5, TNode.rsu 1 6, -(1 / 91)),
       (TNode.rsu 2 5, TNode.rsu 1 6, -(1 / 91)),
       (TNode.rsu 1 5, TNode.rsu 2 6, -(1 / 1)),
       (TNode.rsu 2 5, TNode.rsu 2 6, -(1 / 1)),
       (TNode.rsu 1 6, TNode.rsu 1 7, -(1 / 131)),
       (TNode.rsu 2 6, TNode.rsu 1 7, -(1 / 131)),
       (TNode.rsu 1 6, TNode.rsu 2 7, -(1 / 41)),
       (TNode.rsu 2 6, TNode.rsu 2 7, -(1 / 41)),
       (TNode.rsu 1 7, TNode.rsu 1 8, -(1 / 171)),
       (TNode.rsu 2 7, TNode.rsu 1 8, -(1 / 171)),
       (TNode.rsu 1 7, TNode.rsu 2 8, -(1 / 81)),
       (TNode.rsu 2 7, TNode.rsu 2 8, -(1 / 81))],
       [TNode.rsu 1 8, TNode.rsu 2 8]⟩ := by
    rw [dagBuild_succ, b7]
    norm_num [dagStep, tickLayer, List.filter, predict_future_position, distSq,
      hq0, hq10, hq30, hq40, hq50, hq70, hq80, hq90, hq110, hq120, hq130, hq160, hq170, hq200, hq210, hq250]
    all_goals simp
  have b9 : dagBuild (1, 0) 40 1 0 1 [⟨1, 151, 0⟩, ⟨2, 241, 0⟩] 9 =
      ⟨[(TNode.start, TNode.rsu 1 1, -(1 / 111)),
       (TNode.start, TNode.rsu 2 1, -(1 / 201)),
       (TNode.rsu 1 1, TNode.rsu 1 2, -(1 / 71)),
       (TNode.rsu 2 1, TNode.rsu 1 2, -(1 / 71)),
       (TNode.rsu 1 1, TNode.rsu 2 2, -(1 / 161)),
       (TNode.rsu 2 1, TNode.rsu 2 2, -(1 / 161)),
       (TNode.rsu 1 2, TNode.rsu 1 3, -(1 / 31)),
       (TNode.rsu 2 2, TNode.rsu 1 3, -(1 / 31)),
       (TNode.rsu 1 2, TNode.rsu 2 3, -(1 / 121)),
       (TNode.rsu 2 2, TNode.rsu 2 3, -(1 / 121)),
       (TNode.rsu 1 3, TNode.rsu 1 4, -(1 / 11)),
       (TNode.rsu 2 3, TNode.rsu 1 4, -(1 / 11)),
       (TNode.rsu 1 3, TNode.rsu 2 4, -(1 / 81)),
       (TNode.rsu 2 3, TNode.rsu 2 4, -(1 / 81)),
       (TNode.rsu 1 4, TNode.rsu 1 5, -(1 / 51)),
       (TNode.rsu 2 4, TNode.rsu 1 5, -(1 / 51)),
       (TNode.rsu 1 4, TNode.rsu 2 5, -(1 / 41)),
       (TNode.rsu 2 4, TNode.rsu 2 5, -(1 / 41)),
       (TNode.rsu 1 5, TNode.rsu 1 6, -(1 / 91)),
       (TNode.rsu 2 5, TNode.rsu 1 6, -(1 / 91)),
       (TNode.rsu 1 5, TNode.rsu 2 6, -(1 / 1)),
       (TNode.rsu 2 5, TNode.rsu 2 6, -(1 / 1)),
       (TNode.rsu 1 6, TNode.rsu 1 7, -(1 / 131)),
       (TNode.rsu 2 6, TNode.rsu 1 7, -(1 / 131)),
       (TNode.rsu 1 6, TNode.rsu 2 7, -(1 / 41)),
       (TNode.rsu 2 6, TNode.rsu 2 7, -(1 / 41)),
       (TNode.rsu 1 7, TNode.rsu 1 8, -(1 / 171)),
       (TNode.rsu 2 7, TNode.rsu 1 8, -(1 / 171)),
       (TNode.rsu 1 7, TNode.rsu 2 8, -(1 / 81)),
       (TNode.rsu 2 7, TNode.rsu 2 8, -(1 / 81)),
       (TNode.rsu 1 8, TNode.rsu 1 9, -(1 / 211)),
       (TNode.rsu 2 8, TNode.rsu 1 9, -(1 / 211)),
       (TNode.rsu 1 8, TNode.rsu 2 9, -(1 / 121)),
       (TNode.rsu 2 8, TNode.rsu 2 9, -(1 / 121))],
       [TNode.rsu 1 9, TNode.rsu 2 9]⟩ := by
    rw [dagBuild_succ, b8]
    norm_num [dagStep, tickLayer, List.filter, predict_future_position, distSq,
      hq0, hq10, hq30, hq40, hq50, hq70, hq80, hq90, hq110, hq120, hq130, hq160, hq170, hq200, hq210, hq250]
    all_goals simp
  have b10 : dagBuild (1, 0) 40 1 0 1 [⟨1, 151, 0⟩, ⟨2, 241, 0⟩] 10 =
      ⟨[(TNode.start, TNode.rsu 1 1, -(1 / 111)),
       (TNode.start, TNode.rsu 2 1, -(1 / 201)),
       (TNode.rsu 1 1, TNode.rsu 1 2, -(1 / 71)),
       (TNode.rsu 2 1, TNode.rsu 1 2, -(1 / 71)),
       (TNode.rsu 1 1, TNode.rsu 2 2, -(1 / 161)),
       (TNode.rsu 2 1, TNode.rsu 2 2, -(1 / 161)),
       (TNode.rsu 1 2, TNode.rsu 1 3, -(1 / 31)),
       (TNode.rsu 2 2, TNode.rsu 1 3, -(1 / 31)),
       (TNode.rsu 1 2, TNode.rsu 2 3, -(1 / 121)),
       (TNode.rsu 2 2, TNode.rsu 2 3, -(1 / 121)),
       (TNode.rsu 1 3, TNode.rsu 1 4, -(1 / 11)),
       (TNode.rsu 2 3, TNode.rsu 1 4, -(1 / 11)),
       (TNode.rsu 1 3, TNode.rsu 2 4, -(1 / 81)),
       (TNode.rsu 2 3, TNode.rsu 2 4, -(1 / 81)),
       (TNode.rsu 1 4, TNode.rsu 1 5, -(1 / 51)),
       (TNode.rsu 2 4, TNode.rsu 1 5, -(1 / 51)),
       (TNode.rsu 1 4, TNode.rsu 2 5, -(1 / 41)),
       (TNode.rsu 2 4, TNode.rsu 2 5, -(1 / 41)),
       (TNode.rsu 1 5, TNode.rsu 1 6, -(1 / 91)),
       (TNode.rsu 2 5, TNode.rsu 1 6, -(1 / 91)),
       (TNode.rsu 1 5, TNode.rsu 2 6, -(1 / 1)),
       (TNode.rsu 2 5, TNode.rsu 2 6, -(1 / 1)),
       (TNode.rsu 1 6, TNode.rsu 1 7, -(1 / 131)),
       (TNode.rsu 2 6, TNode.rsu 1 7, -(1 / 131)),
       (TNode.rsu 1 6, TNode.rsu 2 7, -(1 / 41)),
       (TNode.rsu 2 6, TNode.rsu 2 7, -(1 / 41)),
       (TNode.rsu 1 7, TNode.rsu 1 8, -(1 / 171)),
       (TNode.rsu 2 7, TNode.rsu 1 8, -(1 / 171)),
       (TNode.rsu 1 7, TNode.rsu 2 8, -(1 / 81)),
       (TNode.rsu 2 7, TNode.rsu 2 8, -(1 / 81)),
       (TNode.rsu 1 8, TNode.rsu 1 9, -(1 / 211)),
       (TNode.rsu 2 8, TNode.rsu 1 9, -(1 / 211)),
       (TNode.rsu 1 8, TNode.rsu 2 9, -(1 / 121)),
       (TNode.rsu 2 8, TNode.rsu 2 9, -(1 / 121)),
       (TNode.rsu 1 9, TNode.rsu 1 10, -(1 / 251)),
       (TNode.rsu 2 9, TNode.rsu 1 10, -(1 / 251)),
       (TNode.rsu 1 9, TNode.rsu 2 10, -(1 / 161)),
       (TNode.rsu 2 9, TNode.rsu 2 10, -(1 / 161))],
       [TNode.rsu 1 10, TNode.rsu 2 10]⟩ := by
    rw [dagBuild_succ, b9]
    norm_num [dagStep, tickLayer, List.filter, predict_future_position, distSq,
      hq0, hq10, hq30, hq40, hq50, hq70, hq80, hq90, hq110, hq120, hq130, hq160, hq170, hq200, hq210, hq250]
    all_goals simp
  have hE : dagEdges (1, 0) 40 1 0 1 [⟨1, 151, 0⟩, ⟨2, 241, 0⟩] 10 = exEdges := by
    unfold dagEdges
    rw [b10]
    rfl
  refine ⟨dagEdges_weights, ?_, ?_, ?_⟩
  · unfold schedulePaths
    rw [hE]
    have hm11 : [TNode.stop] ∈ pathsFrom exEdges 1 TNode.stop TNode.stop := by
      rw [pathsFrom_self]
      exact List.mem_singleton.mpr rfl
    have hm10 : [TNode.rsu 2 10,
       TNode.stop] ∈
        pathsFrom exEdges 2 (TNode.rsu 2 10) TNode.stop :=
      pathsFrom_mem_cons exEdges 1 (TNode.rsu 2 10) TNode.stop (by simp)
        (TNode.rsu 2 10, TNode.stop, 0) (by simp [exEdges]) rfl _ hm11
    have hm9 : [TNode.rsu 2 9,
       TNode.rsu 2 10,
       TNode.stop] ∈
        pathsFrom exEdges 3 (TNode.rsu 2 9) TNode.stop :=
      pathsFrom_mem_cons exEdges 2 (TNode.rsu 2 9) TNode.stop (by simp)
        (TNode.rsu 2 9, TNode.rsu 2 10, -(1 / 161)) (by simp [exEdges]) rfl _ hm10
    have hm8 : [TNode.rsu 2 8,
       TNode.rsu 2 9,
       TNode.rsu 2 10,
       TNode.stop] ∈
        pathsFrom exEdges 4 (TNode.rsu 2 8) TNode.stop :=
      pathsFrom_mem_cons exEdges 3 (TNode.rsu 2 8) TNode.stop (by simp)
        (TNode.rsu 2 8, TNode.rsu 2 9, -(1 / 121)) (by simp [exEdges]) rfl _ hm9
    have hm7 : [TNode.rsu 2 7,
       TNode.rsu 2 8,
       TNode.rsu 2 9,
       TNode.rsu 2 10,
       TNode.stop] ∈
        pathsFrom exEdges 5 (TNode.rsu 2 7) TNode.stop :=
      pathsFrom_mem_cons exEdges 4 (TNode.rsu 2 7) TNode.stop (by simp)
        (TNode.rsu 2 7, TNode.rsu 2 8, -(1 / 81)) (by simp [exEdges]) rfl _ hm8
    have hm6 : [TNode.rsu 2 6,
       TNode.rsu 2 7,
       TNode.rsu 2 8,
       TNode.rsu 2 9,
       TNode.rsu 2 10,
       TNode.stop] ∈
        pathsFrom exEdges 6 (TNode.rsu 2 6) TNode.stop :=
      pathsFrom_mem_cons exEdges 5 (TNode.rsu 2 6) TNode.stop (by simp)
        (TNode.rsu 2 6, TNode.rsu 2 7, -(1 / 41)) (by simp [exEdges]) rfl _ hm7
    have hm5 : [TNode.rsu 2 5,
       TNode.rsu 2 6,
       TNode.rsu 2 7,
       TNode.rsu 2 8,
       TNode.rsu 2 9,
       TNode.rsu 2 10,
       TNode.stop] ∈
        pathsFrom exEdges 7 (TNode.rsu 2 5) TNode.stop :=
      pathsFrom_mem_cons exEdges 6 (TNode.rsu 2 5) TNode.stop (by simp)
        (TNode.rsu 2 5, TNode.rsu 2 6, -(1 / 1)) (by simp [exEdges]) rfl _ hm6
    have hm4 : [TNode.rsu 1 4,
       TNode.rsu 2 5,
       TNode.rsu 2 6,
       TNode.rsu 2 7,
       TNode.rsu 2 8,
       TNode.rsu 2 9,
       TNode.rsu 2 10,
       TNode.stop] ∈
        pathsFrom exEdges 8 (TNode.rsu 1 4) TNode.stop :=
      pathsFrom_mem_cons exEdges 7 (TNode.rsu 1 4) TNode.stop (by simp)
        (TNode.rsu 1 4, TNode.rsu 2 5, -(1 / 41)) (by simp [exEdges]) rfl _ hm5
    have hm3 : [TNode.rsu 1 3,
       TNode.rsu 1 4,
       TNode.rsu 2 5,
       TNode.rsu 2 6,
       TNode.rsu 2 7,
       TNode.rsu 2 8,
       TNode.rsu 2 9,
       TNode.rsu 2 10,
       TNode.stop] ∈
        pathsFrom exEdges 9 (TNode.rsu 1 3) TNode.stop :=
      pathsFrom_mem_cons exEdges 8 (TNode.rsu 1 3) TNode.stop (by simp)
        (TNode.rsu 1 3, TNode.rsu 1 4, -(1 / 11)) (by simp [exEdges]) rfl _ hm4
    have hm2 : [TNode.rsu 1 2,
       TNode.rsu 1 3,
       TNode.rsu 1 4,
       TNode.rsu 2 5,
       TNode.rsu 2 6,
       TNode.rsu 2 7,
       TNode.rsu 2 8,
       TNode.rsu 2 9,
       TNode.rsu 2 10,
       TNode.stop] ∈
        pathsFrom exEdges 10 (TNode.rsu 1 2) TNode.stop :=
      pathsFrom_mem_cons exEdges 9 (TNode.rsu 1 2) TNode.stop (by simp)
        (TNode.rsu 1 2, TNode.rsu 1 3, -(1 / 31)) (by simp [exEdges]) rfl _ hm3
    have hm1 : [TNode.rsu 1 1,
       TNode.rsu 1 2,
       TNode.rsu 1 3,
       TNode.rsu 1 4,
       TNode.rsu 2 5,
       TNode.rsu 2 6,
       TNode.rsu 2 7,
       TNode.rsu 2 8,
       TNode.rsu 2 9,
       TNode.rsu 2 10,
       TNode.stop] ∈
        pathsFrom exEdges 11 (TNode.rsu 1 1) TNode.stop :=
      pathsFrom_mem_cons exEdges 10 (TNode.rsu 1 1) TNode.stop (by simp)
        (TNode.rsu 1 1, TNode.rsu 1 2, -(1 / 71)) (by simp [exEdges]) rfl _ hm2
    have hm0 : [TNode.start,
       TNode.rsu 1 1,
       TNode.rsu 1 2,
       TNode.rsu 1 3,
       TNode.rsu 1 4,
       TNode.rsu 2 5,
       TNode.rsu 2 6,
       TNode.rsu 2 7,
       TNode.rsu 2 8,
       TNode.rsu 2 9,
       TNode.rsu 2 10,
       TNode.stop] ∈
        pathsFrom exEdges 12 (TNode.start) TNode.stop :=
      pathsFrom_mem_cons exEdges 11 (TNode.start) TNode.stop (by simp)
        (TNode.start, TNode.rsu 1 1, -(1 / 111)) (by simp [exEdges]) rfl _ hm1
    exact hm0
  · rw [hE]
    have hwa0 : weightOf exEdges (TNode.start) (TNode.rsu 1 1) = -(1 / 111) := rfl
    have hwa1 : weightOf exEdges (TNode.rsu 1 1) (TNode.rsu 1 2) = -(1 / 71) := rfl
    have hwa2 : weightOf exEdges (TNode.rsu 1 2) (TNode.rsu 1 3) = -(1 / 31) := rfl
    have hwa3 : weightOf exEdges (TNode.rsu 1 3) (TNode.rsu 1 4) = -(1 / 11) := rfl
    have hwa4 : weightOf exEdges (TNode.rsu 1 4) (TNode.rsu 2 5) = -(1 / 41) := rfl
    have hwa5 : weightOf exEdges (TNode.rsu 2 5) (TNode.rsu 2 6) = -(1 / 1) := rfl
    have hwa6 : weightOf exEdges (TNode.rsu 2 6) (TNode.rsu 2 7) = -(1 / 41) := rfl
    have hwa7 : weightOf exEdges (TNode.rsu 2 7) (TNode.rsu 2 8) = -(1 / 81) := rfl
    have hwa8 : weightOf exEdges (TNode.rsu 2 8) (TNode.rsu 2 9) = -(1 / 121) := rfl
    have hwa9 : weightOf exEdges (TNode.rsu 2 9) (TNode.rsu 2 10) = -(1 / 161) := rfl
    have hwa10 : weightOf exEdges (TNode.rsu 2 10) (TNode.stop) = 0 := rfl
    have hwa11 : weightOf exEdges (TNode.rsu 1 4) (TNode.rsu 1 5) = -(1 / 51) := rfl
    have hwa12 : weightOf exEdges (TNode.rsu 1 5) (TNode.rsu 1 6) = -(1 / 91) := rfl
    have hwa13 : weightOf exEdges (TNode.rsu 1 6) (TNode.rsu 1 7) = -(1 / 131) := rfl
    have hwa14 : weightOf exEdges (TNode.rsu 1 7) (TNode.rsu 1 8) = -(1 / 171) := rfl
    have hwa15 : weightOf exEdges (TNode.rsu 1 8) (TNode.rsu 1 9) = -(1 / 211) := rfl
    have hwa16 : weightOf exEdges (TNode.rsu 1 9) (TNode.rsu 1 10) = -(1 / 251) := rfl
    have hwa17 : weightOf exEdges (TNode.rsu 1 10) (TNode.stop) = 0 := rfl
    simp only [pathWeight, exSwitch, exCommit1, hwa0, hwa1, hwa2, hwa3, hwa4, hwa5, hwa6, hwa7, hwa8, hwa9, hwa10, hwa11, hwa12, hwa13, hwa14, hwa15, hwa16, hwa17]
    norm_num
  · rw [hE]
    have hwb0 : weightOf exEdges (TNode.start) (TNode.rsu 1 1) = -(1 / 111) := rfl
    have hwb1 : weightOf exEdges (TNode.rsu 1 1) (TNode.rsu 1 2) = -(1 / 71) := rfl
    have hwb2 : weightOf exEdges (TNode.rsu 1 2) (TNode.rsu 1 3) = -(1 / 31) := rfl
    have hwb3 : weightOf exEdges (TNode.rsu 1 3) (TNode.rsu 1 4) = -(1 / 11) := rfl
    have hwb4 : weightOf exEdges (TNode.rsu 1 4) (TNode.rsu 2 5) = -(1 / 41) := rfl
    have hwb5 : weightOf exEdges (TNode.rsu 2 5) (TNode.rsu 2 6) = -(1 / 1) := rfl
    have hwb6 : weightOf exEdges (TNode.rsu 2 6) (TNode.rsu 2 7) = -(1 / 41) := rfl
    have hwb7 : weightOf exEdges (TNode.rsu 2 7) (TNode.rsu 2 8) = -(1 / 81) := rfl
    have hwb8 : weightOf exEdges (TNode.rsu 2 8) (TNode.rsu 2 9) = -(1 / 121) := rfl
    have hwb9 : weightOf exEdges (TNode.rsu 2 9) (TNode.rsu 2 10) = -(1 / 161) := rfl
    have hwb10 : weightOf exEdges (TNode.rsu 2 10) (TNode.stop) = 0 := rfl
    have hwb11 : weightOf exEdges (TNode.start) (TNode.rsu 2 1) = -(1 / 201) := rfl
    have hwb12 : weightOf exEdges (TNode.rsu 2 1) (TNode.rsu 2 2) = -(1 / 161) := rfl
    have hwb13 : weightOf exEdges (TNode.rsu 2 2) (TNode.rsu 2 3) = -(1 / 121) := rfl
    have hwb14 : weightOf exEdges (TNode.rsu 2 3) (TNode.rsu 2 4) = -(1 / 81) := rfl
    have hwb15 : weightOf exEdges (TNode.rsu 2 4) (TNode.rsu 2 5) = -(1 / 41) := rfl
    simp only [pathWeight, exSwitch, exCommit2, hwb0, hwb1, hwb2, hwb3, hwb4, hwb5, hwb6, hwb7, hwb8, hwb9, hwb10, hwb11, hwb12, hwb13, hwb14, hwb15]
    norm_num


end RSUSim
